import Mathlib

/-!
# Verification of the PyModbusDevices Modbus-TCP core

Shallow embedding of the Modbus-TCP frame codec and request dispatcher of
`Server/modbus_chemical_process.py` and `Client/pymbtget.py`, and of the
chemical-process simulation tick of `Server/modbus_chemical_process.py`.

Conventions of the embedding:
* wire bytes are `ℕ` (values `< 256` on real frames; theorems carry this as a
  hypothesis where it matters);
* Python's unbounded `int` registers and coils are `ℤ`;
* Python `float` process quantities are modelled as `ℚ` (the constants of the
  source such as 0.2, 0.4 are written as exact rationals);
* code that can raise (`struct.pack`/`struct.unpack` errors, list
  `IndexError`) is modelled with `Option`, `none` meaning the Python code
  raises and no response is produced;
* the background simulation thread is modelled as a function applied once per
  tick, and the `auto_control` thread spawned at the start of a tick is
  modelled as running synchronously at the start of that tick;
* the three `random` draws of a tick are supplied by a `Rand` record.
-/

namespace PyModbus

/-- High byte of a 16-bit big-endian value, as produced by `struct.pack(">H", v)`. -/
def u16hi (v : ℕ) : ℕ := v / 256 % 256

/-- Low byte of a 16-bit big-endian value. -/
def u16lo (v : ℕ) : ℕ := v % 256

/-- `struct.pack(">H", v)`: two big-endian bytes. -/
def u16be (v : ℕ) : List ℕ := [u16hi v, u16lo v]

/-- `struct.unpack(">H", [hi, lo])`: recombine two big-endian bytes. -/
def beToNat (hi lo : ℕ) : ℕ := hi * 256 + lo

/-- One response byte assembled LSB-first from a list of bits
(`byte_value |= bit_value << j` in the read-coils branch of `handle_request`;
the bits are 0/1 so bitwise or is addition into disjoint positions). -/
def bitsToByte : List ℕ → ℕ
  | [] => 0
  | b :: bs => b + 2 * bitsToByte bs

/-- The packed coil bytes of a read-coils response (second packing loop of
`handle_request`, lines 622–642): one byte per full group of 8 coil values in
address order, then one byte holding the `coil_count % 8` remaining bits. -/
def packCoilData (coils : List ℕ) (coil_count : ℕ) : List ℕ :=
  (List.range (coil_count / 8)).map (fun i => bitsToByte ((coils.drop (8 * i)).take 8)) ++
    (if coil_count % 8 ≠ 0 then [bitsToByte (coils.drop (coil_count - coil_count % 8))] else [])

/-- The parsed header fields of a request, as unpacked at the top of
`ModbusServer.handle_request` (lines 559–567). -/
structure ParsedRequest where
  transaction_id : ℕ
  protocol_id : ℕ
  length : ℕ
  unit_id : ℕ
  function_code : ℕ
  data : List ℕ
  deriving Repr, DecidableEq

/-- `struct.unpack(">HHH", request[:6])`, `request[6]`, `request[7]`,
`request[8:]`: fails (raises) when the request is shorter than 8 bytes. -/
def parseRequest : List ℕ → Option ParsedRequest
  | t1 :: t2 :: p1 :: p2 :: l1 :: l2 :: u :: f :: data =>
    some { transaction_id := beToNat t1 t2
           protocol_id := beToNat p1 p2
           length := beToNat l1 l2
           unit_id := u
           function_code := f
           data := data }
  | _ => none

/-- `struct.unpack(">HH", data)`: requires exactly four bytes. -/
def parse4 : List ℕ → Option (ℕ × ℕ)
  | [a1, a2, v1, v2] => some (beToNat a1 a2, beToNat v1 v2)
  | _ => none

/-- The Modbus exception response built in the unsupported-function branch of
`handle_request` (lines 704–717): header with length field 3, function code
or-ed with 0x80, exception code 0x01. -/
def exceptionResponse (transaction_id protocol_id unit_id function_code : ℕ) : List ℕ :=
  u16be transaction_id ++ u16be protocol_id ++ u16be 3 ++
    [unit_id, function_code ||| 0x80] ++ [0x01]

/-- `ModbusServer.handle_request` (lines 559–719) acting on the coil and
holding-register stores.  Returns the updated stores and the response bytes,
or `none` where the Python code raises and the connection handler sends
nothing:
* a request shorter than 8 bytes (`struct.unpack` fails);
* function-specific data that is not exactly 4 bytes (`struct.unpack(">HH")`);
* read coils with `(coil_count + 7) / 8 > 255` (`struct.pack(">B", byte_count)`);
* read coils touching an index `≥ 65536` (list `IndexError` in the packing
  loop; the dead first loop, lines 580–595, indexes only `coil_index // 8 ≤
  16383` and cannot fail, and its result is discarded by the reassignment at
  line 623, so it is not modelled);
* read holding registers touching an index `≥ 65536` (`IndexError`) or a
  stored value outside `0..65535` (`struct.pack(">H", value)`), or with
  `2 * quantity > 255` (`struct.pack(">B", byte_count)`). -/
def handle_request (coils holding_registers : ℕ → ℤ) (request : List ℕ) :
    Option ((ℕ → ℤ) × (ℕ → ℤ) × List ℕ) :=
  match parseRequest request with
  | none => none
  | some pr =>
    if pr.function_code = 1 then
      match parse4 pr.data with
      | none => none
      | some (coil_address, coil_count) =>
        let byte_count := (coil_count + 7) / 8
        if byte_count ≤ 255 then
          if ∀ i < coil_count, coil_address + i < 65536 then
            let coil_bits := (List.range coil_count).map
              (fun i => if coils (coil_address + i) = 1 then 1 else 0)
            let response := u16be pr.transaction_id ++ u16be pr.protocol_id ++
              u16be (3 + byte_count) ++ [pr.unit_id, pr.function_code] ++ [byte_count] ++
              packCoilData coil_bits coil_count
            some (coils, holding_registers, response)
          else none
        else none
    else if pr.function_code = 3 then
      match parse4 pr.data with
      | none => none
      | some (starting_address, quantity) =>
        if ∀ i < quantity, starting_address + i < 65536 ∧
            0 ≤ holding_registers (starting_address + i) ∧
            holding_registers (starting_address + i) ≤ 65535 then
          let byte_count := quantity * 2
          if byte_count ≤ 255 then
            let register_data := (List.range quantity).flatMap
              (fun i => u16be (holding_registers (starting_address + i)).toNat)
            let response := u16be pr.transaction_id ++ u16be pr.protocol_id ++
              u16be (3 + byte_count) ++ [pr.unit_id, pr.function_code] ++ [byte_count] ++
              register_data
            some (coils, holding_registers, response)
          else none
        else none
    else if pr.function_code = 5 then
      match parse4 pr.data with
      | none => none
      | some (coil_address, coil_value) =>
        let coils' := Function.update coils coil_address
          (if coil_value = 0xFF00 then (1 : ℤ) else 0)
        let response := u16be pr.transaction_id ++ u16be pr.protocol_id ++
          u16be 6 ++ [pr.unit_id, pr.function_code] ++ u16be coil_address ++
          u16be coil_value
        some (coils', holding_registers, response)
    else if pr.function_code = 6 then
      match parse4 pr.data with
      | none => none
      | some (register_address, register_value) =>
        let holding_registers' := Function.update holding_registers register_address
          (register_value : ℤ)
        let response := u16be pr.transaction_id ++ u16be pr.protocol_id ++
          u16be 6 ++ [pr.unit_id, pr.function_code] ++ u16be register_address ++
          u16be register_value
        some (coils, holding_registers', response)
    else
      some (coils, holding_registers,
        exceptionResponse pr.transaction_id pr.protocol_id pr.unit_id pr.function_code)

/-! ## Client frame codec (`Client/pymbtget.py`) -/

/-- `ModbusTCPClient.send_request` (lines 113–142): the encoded request frame.
The header is `(transaction_id, protocol_id = 0, length = 6, unit_id)`; for
function codes 1, 2, 3, 4, 6 the payload is `(address, quantity_or_value)`;
for function code 5 the value sent is `0xFF00` when `quantity_or_value == 1`
and `0x0000` otherwise.  `none` where `struct.pack` would raise
(header or payload field out of range) or where no branch assigns `tx_buffer`
(an unlisted function code leaves `tx_buffer` unbound and `self.sock.send`
raises `NameError`). -/
def send_request (transaction_id unit_id function_code address quantity_or_value : ℕ) :
    Option (List ℕ) :=
  if function_code = 1 ∨ function_code = 2 ∨ function_code = 3 ∨ function_code = 4 ∨
      function_code = 6 then
    if transaction_id ≤ 65535 ∧ unit_id ≤ 255 ∧ address ≤ 65535 ∧ quantity_or_value ≤ 65535 then
      some (u16be transaction_id ++ u16be 0 ++ u16be 6 ++ [unit_id, function_code] ++
        u16be address ++ u16be quantity_or_value)
    else none
  else if function_code = 5 then
    if transaction_id ≤ 65535 ∧ unit_id ≤ 255 ∧ address ≤ 65535 then
      some (u16be transaction_id ++ u16be 0 ++ u16be 6 ++ [unit_id, function_code] ++
        u16be address ++ u16be (if quantity_or_value = 1 then 0xFF00 else 0))
    else none
  else none

/-- The function-specific payload returned by `ModbusTCPClient.receive_response`
as `response_data`: an `(address, value)` echo for the two write codes, the
raw packed-coil data bytes for bit reads (the source holds each byte as its
8-character binary-string representation, an encoding that maps each byte
bijectively), or the list of 16-bit word values for register reads. -/
inductive ResponseData where
  | write_echo (address value : ℕ)
  | coil_bytes (data : List ℕ)
  | words (values : List ℕ)
  deriving Repr, DecidableEq

/-- The tuple returned by `ModbusTCPClient.receive_response` (line 194). -/
structure ClientResponse where
  transaction_id : ℕ
  protocol_id : ℕ
  length : ℕ
  unit_id : ℕ
  function_code : ℕ
  byte_count : ℕ
  response_data : ResponseData
  deriving Repr, DecidableEq

/-- `struct.unpack(">B" + "H" * n, ...)`: successive big-endian byte pairs. -/
def wordsOf : List ℕ → List ℕ
  | hi :: lo :: rest => beToNat hi lo :: wordsOf rest
  | _ => []

/-- `ModbusTCPClient.receive_response` (lines 145–194) applied to the byte
stream `resp` delivered on the socket.  Reads a 7-byte header, then
`length - 1` body bytes, and decodes by function code.  `none` where the
Python code raises: short header (`struct.unpack(">HHHB")`), empty body
(`response_body[0]`), an exception response (`function_code >= 0x80` raises
`ValueError`), a write echo whose body is not exactly 5 bytes
(`struct.unpack(">HH")`), a bit read with no byte-count byte
(`response_body[1]`), a register read whose body does not match the length
field (`struct.unpack`), or an unsupported function code (`ValueError`). -/
def receive_response : List ℕ → Option ClientResponse
  | t1 :: t2 :: p1 :: p2 :: l1 :: l2 :: u :: body0 =>
    let transaction_id := beToNat t1 t2
    let protocol_id := beToNat p1 p2
    let length := beToNat l1 l2
    let unit_id := u
    match body0.take (length - 1) with
    | [] => none
    | function_code :: rest =>
      if 0x80 ≤ function_code then none
      else if function_code = 6 then
        match rest with
        | [a1, a2, v1, v2] =>
          some ⟨transaction_id, protocol_id, length, unit_id, function_code, 4,
            .write_echo (beToNat a1 a2) (beToNat v1 v2)⟩
        | _ => none
      else if function_code = 5 then
        match rest with
        | [a1, a2, v1, v2] =>
          some ⟨transaction_id, protocol_id, length, unit_id, function_code, 4,
            .write_echo (beToNat a1 a2) (beToNat v1 v2)⟩
        | _ => none
      else if function_code = 1 ∨ function_code = 2 then
        match rest with
        | [] => none
        | byte_count :: data =>
          some ⟨transaction_id, protocol_id, length, unit_id, function_code, byte_count,
            .coil_bytes data⟩
      else if function_code = 3 ∨ function_code = 4 then
        if rest.length = 1 + 2 * ((length - 3) / 2) then
          match rest with
          | [] => none
          | byte_count :: data =>
            some ⟨transaction_id, protocol_id, length, unit_id, function_code, byte_count,
              .words (wordsOf data)⟩
        else none
      else none
  | _ => none

/-! ## Process simulation (`Server/modbus_chemical_process.py`) -/

/- Modbus coil addresses. -/
abbrev POWDER_INLET_ADDR : ℕ := 200
abbrev LIQUID_INLET_ADDR : ℕ := 201
abbrev MIXER_ADDR : ℕ := 202
abbrev SAFETY_RELIEF_VALVE_ADDR : ℕ := 203
abbrev OUTLET_VALVE_ADDR : ℕ := 204
abbrev AUTO_CONTROL_ENABLE : ℕ := 205

/- Modbus register addresses. -/
abbrev POWDER_TANK_LEVEL_ADDR : ℕ := 230
abbrev PROPORTIONAL_POWDER_FEED_ADDR : ℕ := 231
abbrev LIQUID_TANK_LEVEL_ADDR : ℕ := 232
abbrev PROPORTIONAL_LIQUID_FEED_ADDR : ℕ := 233
abbrev INTERMEDIATE_SLURRY_LEVEL_ADDR : ℕ := 234
abbrev PROCESSED_PRODUCT_LEVEL_ADDR : ℕ := 235
abbrev HEATER_ADDR : ℕ := 236
abbrev MIX_TANK_PRESSURE_ADDR : ℕ := 237
abbrev TANK_TEMP_LOWER_ADDR : ℕ := 238
abbrev TANK_TEMP_UPPER_ADDR : ℕ := 239
abbrev POWDER_MIXING_VOLUME_ADDR : ℕ := 240
abbrev LIQUID_MIXING_VOLUME_ADDR : ℕ := 241
abbrev PROD_FLOW_ADDR : ℕ := 242
abbrev PROD_FLOW_EST_MINUTE_ADDR : ℕ := 243

/- Valve constants. -/
abbrev INLET_MAX_FLOW : ℚ := 10
abbrev PROPORTIONAL_VALVE_INCREMENT : ℚ := 1
abbrev ON_OFF_VALVE_INCREMENT : ℚ := 20
abbrev VALVE_MIN : ℚ := 0
abbrev VALVE_MAX : ℚ := 100

/- Tank constants. -/
abbrev POWDER_TANK_FILL_LIMIT : ℚ := 300
abbrev LIQUID_TANK_FILL_LIMIT : ℚ := 800
abbrev MAX_TANK_VOLUME : ℚ := 10000
abbrev BASE_PRESSURE : ℚ := 101
abbrev PRESSURE_INCREASE_LOW : ℚ := 1/5
abbrev PRESSURE_INCREASE_MEDIUM : ℚ := 3/10
abbrev PRESSURE_INCREASE_HIGH : ℚ := 2/5
abbrev PRESSURE_DECREASE : ℚ := 1/5
abbrev RELEIF_PRESSURE_DECREASE : ℚ := 5

/- Heater constants. -/
abbrev MAX_HEATER_TEMP : ℚ := 160
abbrev COOLING_RATE : ℚ := 1/5
abbrev HEATING_RATE : ℚ := 2/5
abbrev AMBIENT_TEMP : ℚ := 20

/- Chemical processing constants. -/
abbrev MIN_REACTION_TEMP : ℚ := 50
abbrev MAX_REACTION_TEMP : ℚ := 160
abbrev BASE_CONVERSION_RATE : ℚ := 1/5
abbrev MAX_CONVERSION_RATE : ℚ := 10
abbrev REACTION_TEMPERATURE_INCREASE : ℚ := 1/10
abbrev ENHANCED_REACTION_TEMP_THRESHOLD : ℚ := 110
abbrev ENHANCED_REACTION_MULTIPLIER : ℚ := 2
abbrev EXTRA_HEAT_FROM_ENHANCED_REACTION : ℚ := 3/5
abbrev MAX_OUTLET_FLOW : ℚ := 25

/- Error values. -/
abbrev ERROR_REG : ℤ := 9999
abbrev ERROR_COIL : ℤ := 1
abbrev PRESSURE_ERROR_LIMIT : ℚ := 400
abbrev POWDER_IGNITION_TEMPERATURE : ℚ := 130
abbrev PRODUCT_MIX_ERROR_LEVEL : ℚ := 20

/-- The random draws consumed by one simulation tick: `random.randint(400, 600)`
for the powder refill, `random.randint(LIQUID_TANK_FILL_LIMIT - 3,
LIQUID_TANK_FILL_LIMIT)` for the liquid top-up, and `random.random() < 0.25`
for the enhanced-reaction chance.  The values are left unconstrained; every
theorem below holds for arbitrary draws. -/
structure Rand where
  refill_powder : ℕ
  liquid_fill : ℕ
  enhanced_reaction : Bool

/-- The mutable state of `ModbusServer` relevant to the simulation and the
dispatcher (socket and thread handles omitted). -/
@[ext] structure ProcState where
  coils : ℕ → ℤ
  holding_registers : ℕ → ℤ
  powder_inlet : ℚ
  powder_inlet_prop : ℚ
  liquid_inlet : ℚ
  liquid_inlet_prop : ℚ
  outlet_valve_position : ℚ
  powder_tank_level : ℚ
  liquid_tank_level : ℚ
  powder_mix_tank_level : ℚ
  liquid_mix_tank_level : ℚ
  processed_mix_tank_level : ℚ
  powder_inlet_flow : ℚ
  liquid_inlet_flow : ℚ
  product_outlet_flow : ℚ
  product_outlet_flow_history : List ℚ
  temperature_upper : ℚ
  temperature_lower : ℚ
  upper_temp_history : List ℚ
  lower_temp_history : List ℚ
  tank_pressure : ℚ
  process_error : Bool

/-- One on/off valve movement (the pattern repeated in
`update_inlet_valve_positions` lines 267–272 and 284–289 and in
`update_outlet_flow` lines 418–425): step by `ON_OFF_VALVE_INCREMENT` toward
the commanded extreme, clamped to `[VALVE_MIN, VALVE_MAX]`. -/
def on_off_valve_step (coil : ℤ) (position : ℚ) : ℚ :=
  if coil = 1 ∧ position < VALVE_MAX then min (position + ON_OFF_VALVE_INCREMENT) VALVE_MAX
  else if coil = 0 ∧ position > VALVE_MIN then max (position - ON_OFF_VALVE_INCREMENT) VALVE_MIN
  else position

/-- One proportional valve movement (`update_inlet_valve_positions`
lines 275–281 and 292–298): step by `PROPORTIONAL_VALVE_INCREMENT` toward the
target register, clamped at the target. -/
def prop_valve_step (position target : ℚ) : ℚ :=
  if position < target then min (position + PROPORTIONAL_VALVE_INCREMENT) target
  else if position > target then max (position - PROPORTIONAL_VALVE_INCREMENT) target
  else position

/-- `ModbusServer.auto_control` (lines 229–262).  The source starts this in a
fresh thread at the top of a tick; it is modelled as running synchronously
before the tick's update functions. -/
def auto_control (s : ProcState) : ProcState :=
  let coils := Function.update (Function.update (Function.update s.coils
    POWDER_INLET_ADDR 1) LIQUID_INLET_ADDR 1) MIXER_ADDR 1
  let regs := s.holding_registers
  let regs := if s.powder_mix_tank_level < 1400 then
    Function.update regs PROPORTIONAL_POWDER_FEED_ADDR 50 else regs
  let regs := if s.powder_mix_tank_level > 1600 then
    Function.update regs PROPORTIONAL_POWDER_FEED_ADDR 0 else regs
  let regs := if s.liquid_mix_tank_level < 1400 then
    Function.update regs PROPORTIONAL_LIQUID_FEED_ADDR 50 else regs
  let regs := if s.liquid_mix_tank_level > 1600 then
    Function.update regs PROPORTIONAL_LIQUID_FEED_ADDR 0 else regs
  let regs := if s.powder_mix_tank_level > 1000 ∧ s.liquid_mix_tank_level > 1000 then
    Function.update regs HEATER_ADDR 40 else regs
  let coils := if s.processed_mix_tank_level > 2000 then
    Function.update coils OUTLET_VALVE_ADDR 1 else coils
  let coils := if s.processed_mix_tank_level < 1700 then
    Function.update coils OUTLET_VALVE_ADDR 0 else coils
  let coils := if s.tank_pressure > 200 then
    Function.update coils SAFETY_RELIEF_VALVE_ADDR 1
    else Function.update coils SAFETY_RELIEF_VALVE_ADDR 0
  { s with coils := coils, holding_registers := regs }

/-- The conditional `auto_control` launch at the top of `simulate_data`
(lines 208–211). -/
def auto_step (s : ProcState) : ProcState :=
  if s.coils AUTO_CONTROL_ENABLE = 1 then auto_control s else s

/-- `ModbusServer.update_inlet_valve_positions` (lines 265–298). -/
def update_inlet_valve_positions (s : ProcState) : ProcState :=
  { s with
    powder_inlet := on_off_valve_step (s.coils POWDER_INLET_ADDR) s.powder_inlet
    powder_inlet_prop := prop_valve_step s.powder_inlet_prop
      ((s.holding_registers PROPORTIONAL_POWDER_FEED_ADDR : ℤ) : ℚ)
    liquid_inlet := on_off_valve_step (s.coils LIQUID_INLET_ADDR) s.liquid_inlet
    liquid_inlet_prop := prop_valve_step s.liquid_inlet_prop
      ((s.holding_registers PROPORTIONAL_LIQUID_FEED_ADDR : ℤ) : ℚ) }

/-- `ModbusServer.update_inlet_flows` (lines 301–320). -/
def update_inlet_flows (r : Rand) (s : ProcState) : ProcState :=
  let powder_inlet_flow := min s.powder_inlet s.powder_inlet_prop / 100 * INLET_MAX_FLOW
  let liquid_inlet_flow := min s.liquid_inlet s.liquid_inlet_prop / 100 * INLET_MAX_FLOW
  let powder_tank_level := s.powder_tank_level - powder_inlet_flow
  let liquid_tank_level := s.liquid_tank_level - liquid_inlet_flow
  let powder_tank_level := if powder_tank_level < POWDER_TANK_FILL_LIMIT then
    powder_tank_level + r.refill_powder else powder_tank_level
  let liquid_tank_level := if liquid_tank_level < LIQUID_TANK_FILL_LIMIT then
    (r.liquid_fill : ℚ) else liquid_tank_level
  { s with
    powder_inlet_flow := powder_inlet_flow
    liquid_inlet_flow := liquid_inlet_flow
    powder_tank_level := powder_tank_level
    liquid_tank_level := liquid_tank_level
    powder_mix_tank_level := s.powder_mix_tank_level + powder_inlet_flow
    liquid_mix_tank_level := s.liquid_mix_tank_level + liquid_inlet_flow }

/-- `ModbusServer.update_temperature_from_heater` (lines 323–346).  The popped
head of the history lists is read with `headI`; every state produced by the
source keeps both histories at length 10, so the default value is never
consulted on reachable states. -/
def update_temperature_from_heater (s : ProcState) : ProcState :=
  let heater_setting := ((s.holding_registers HEATER_ADDR : ℤ) : ℚ) / 100
  let target_temperature := heater_setting * (MAX_HEATER_TEMP - AMBIENT_TEMP) + AMBIENT_TEMP
  let delayed_lower_temp := s.lower_temp_history.headI
  let upper_temp_history := s.upper_temp_history.tail ++ [s.temperature_upper]
  let lower_temp_history := s.lower_temp_history.tail ++ [s.temperature_lower]
  if delayed_lower_temp < target_temperature then
    { s with
      temperature_lower := s.temperature_lower + HEATING_RATE
      temperature_upper := s.temperature_upper + HEATING_RATE
      upper_temp_history := upper_temp_history
      lower_temp_history := lower_temp_history }
  else
    { s with
      temperature_lower := max (s.temperature_lower - COOLING_RATE) AMBIENT_TEMP
      temperature_upper := max (s.temperature_upper - COOLING_RATE) AMBIENT_TEMP
      upper_temp_history := upper_temp_history
      lower_temp_history := lower_temp_history }

/-- The reaction step of `ModbusServer.process_chemicals` (lines 349–397),
before the fault checks. -/
def react (r : Rand) (s : ProcState) : ProcState :=
  let mixer_on := s.coils MIXER_ADDR
  let current_temp := s.temperature_lower
  let conversion_rate := if current_temp < MIN_REACTION_TEMP then 0
    else BASE_CONVERSION_RATE + (current_temp - MIN_REACTION_TEMP) /
      (MAX_REACTION_TEMP - MIN_REACTION_TEMP) * (MAX_CONVERSION_RATE - BASE_CONVERSION_RATE)
  if mixer_on = 1 ∧ current_temp ≥ MIN_REACTION_TEMP then
    let is_enhanced_reaction := current_temp > ENHANCED_REACTION_TEMP_THRESHOLD ∧
      r.enhanced_reaction
    let reaction_multiplier := if is_enhanced_reaction then ENHANCED_REACTION_MULTIPLIER else 1
    let processed_powder := min s.powder_mix_tank_level (conversion_rate * reaction_multiplier)
    let processed_liquid := min s.liquid_mix_tank_level (conversion_rate * reaction_multiplier)
    let temperature_increase := if is_enhanced_reaction then
      REACTION_TEMPERATURE_INCREASE + EXTRA_HEAT_FROM_ENHANCED_REACTION
      else REACTION_TEMPERATURE_INCREASE
    { s with
      powder_mix_tank_level := max (s.powder_mix_tank_level - processed_powder) 0
      liquid_mix_tank_level := max (s.liquid_mix_tank_level - processed_liquid) 0
      processed_mix_tank_level := s.processed_mix_tank_level + (processed_powder + processed_liquid)
      temperature_lower := s.temperature_lower + temperature_increase
      temperature_upper := s.temperature_upper + temperature_increase }
  else s

/-- Fault condition of `process_chemicals` line 403: the mixing tank is
overfilled. -/
def overfill_fault (s : ProcState) : Prop :=
  s.powder_mix_tank_level + s.liquid_mix_tank_level + s.processed_mix_tank_level >
    MAX_TANK_VOLUME

/-- Fault condition of `process_chemicals` line 407: the outlet valve is open
while the processed product is at or below the near-empty threshold. -/
def outlet_fault (s : ProcState) : Prop :=
  s.processed_mix_tank_level ≤ PRODUCT_MIX_ERROR_LEVEL ∧ s.outlet_valve_position ≠ 0

/-- Fault condition of `process_chemicals` lines 411–413: powder is being fed
during high upper temperature with the safety relief valve open. -/
def ignition_fault (s : ProcState) : Prop :=
  s.coils SAFETY_RELIEF_VALVE_ADDR = 1 ∧
    s.powder_inlet_flow ≠ 0 ∧ s.temperature_upper > POWDER_IGNITION_TEMPERATURE

instance : DecidablePred overfill_fault := fun s => by unfold overfill_fault; infer_instance
instance : DecidablePred outlet_fault := fun s => by unfold outlet_fault; infer_instance
instance : DecidablePred ignition_fault := fun s => by unfold ignition_fault; infer_instance

/-- The fault checks of `process_chemicals` (lines 399–413). -/
def chem_fault_check (s : ProcState) : ProcState :=
  { s with process_error := s.process_error || decide (overfill_fault s) ||
      decide (outlet_fault s) || decide (ignition_fault s) }

/-- `ModbusServer.process_chemicals` (lines 349–413). -/
def process_chemicals (r : Rand) (s : ProcState) : ProcState :=
  chem_fault_check (react r s)

/-- `ModbusServer.update_outlet_flow` (lines 416–446). -/
def update_outlet_flow (s : ProcState) : ProcState :=
  let outlet_valve_position := on_off_valve_step (s.coils OUTLET_VALVE_ADDR)
    s.outlet_valve_position
  let product_outlet_flow := if outlet_valve_position > 0 then
    min s.processed_mix_tank_level (outlet_valve_position / VALVE_MAX * MAX_OUTLET_FLOW)
    else 0
  let history := s.product_outlet_flow_history ++ [product_outlet_flow]
  let history := if 60 < history.length then history.tail else history
  { s with
    outlet_valve_position := outlet_valve_position
    product_outlet_flow := product_outlet_flow
    product_outlet_flow_history := history
    processed_mix_tank_level := max (s.processed_mix_tank_level - product_outlet_flow) 0 }

/-- `ModbusServer.get_average_outlet_flow_per_minute` (lines 449–454). -/
def get_average_outlet_flow_per_minute (s : ProcState) : ℚ :=
  if s.product_outlet_flow_history ≠ [] then
    s.product_outlet_flow_history.sum / s.product_outlet_flow_history.length * 60
  else 0

/-- Fault condition of `update_tank_pressure` line 495: pressure above the hard
limit. -/
def pressure_fault (s : ProcState) : Prop := s.tank_pressure > PRESSURE_ERROR_LIMIT

instance : DecidablePred pressure_fault := fun s => by unfold pressure_fault; infer_instance

/-- The pressure dynamics of `ModbusServer.update_tank_pressure`
(lines 457–493), before the fault check. -/
def pressure_step (s : ProcState) : ProcState :=
  let current_volume := s.powder_mix_tank_level + s.liquid_mix_tank_level +
    s.processed_mix_tank_level
  let fill_percentage := current_volume / MAX_TANK_VOLUME * 100
  let pressure_change_rate := if s.temperature_upper > 50 then
    (if s.temperature_upper < 80 then PRESSURE_INCREASE_LOW
     else if s.temperature_upper < 120 then PRESSURE_INCREASE_MEDIUM
     else PRESSURE_INCREASE_HIGH)
    else 0
  let pressure_scaling_factor := if fill_percentage > 50 then
    1 + (fill_percentage / 50) ^ 2 else 1
  let tank_pressure := if fill_percentage > 50 then
    s.tank_pressure + pressure_change_rate * pressure_scaling_factor
    else s.tank_pressure - PRESSURE_DECREASE
  let tank_pressure := if s.coils SAFETY_RELIEF_VALVE_ADDR = 1 then
    tank_pressure - RELEIF_PRESSURE_DECREASE else tank_pressure
  { s with tank_pressure := max tank_pressure BASE_PRESSURE }

/-- `ModbusServer.update_tank_pressure` (lines 457–496). -/
def update_tank_pressure (s : ProcState) : ProcState :=
  let s := pressure_step s
  { s with process_error := s.process_error || decide (pressure_fault s) }

/-- Python `int()` on a float value: truncation toward zero. -/
def pyInt (q : ℚ) : ℤ := if q < 0 then ⌈q⌉ else ⌊q⌋

/-- Python `round()` on a float value: round half to even. -/
def pyRound (q : ℚ) : ℤ :=
  if q - ⌊q⌋ < 1/2 then ⌊q⌋
  else if 1/2 < q - ⌊q⌋ then ⌊q⌋ + 1
  else if Even ⌊q⌋ then ⌊q⌋ else ⌊q⌋ + 1

/-- `ModbusServer.update_registers` (lines 499–511). -/
def update_registers (s : ProcState) : ProcState :=
  let regs := s.holding_registers
  let regs := Function.update regs POWDER_TANK_LEVEL_ADDR (pyInt s.powder_tank_level)
  let regs := Function.update regs LIQUID_TANK_LEVEL_ADDR (pyInt s.liquid_tank_level)
  let regs := Function.update regs POWDER_MIXING_VOLUME_ADDR (pyInt s.powder_mix_tank_level)
  let regs := Function.update regs LIQUID_MIXING_VOLUME_ADDR (pyInt s.liquid_mix_tank_level)
  let regs := Function.update regs PROCESSED_PRODUCT_LEVEL_ADDR (pyInt s.processed_mix_tank_level)
  let regs := Function.update regs INTERMEDIATE_SLURRY_LEVEL_ADDR
    (pyInt (s.powder_mix_tank_level + s.liquid_mix_tank_level))
  let regs := Function.update regs TANK_TEMP_UPPER_ADDR (pyRound s.temperature_upper)
  let regs := Function.update regs TANK_TEMP_LOWER_ADDR (pyRound s.temperature_lower)
  let regs := Function.update regs PROD_FLOW_ADDR (pyInt s.product_outlet_flow)
  let regs := Function.update regs PROD_FLOW_EST_MINUTE_ADDR
    (pyRound (get_average_outlet_flow_per_minute s))
  let regs := Function.update regs MIX_TANK_PRESSURE_ADDR (pyRound s.tank_pressure)
  { s with holding_registers := regs }

/-- `ModbusServer.set_error_values` (lines 514–534). -/
def set_error_values (s : ProcState) : ProcState :=
  let regs := s.holding_registers
  let regs := Function.update regs POWDER_TANK_LEVEL_ADDR ERROR_REG
  let regs := Function.update regs PROPORTIONAL_POWDER_FEED_ADDR ERROR_REG
  let regs := Function.update regs LIQUID_TANK_LEVEL_ADDR ERROR_REG
  let regs := Function.update regs PROPORTIONAL_LIQUID_FEED_ADDR ERROR_REG
  let regs := Function.update regs INTERMEDIATE_SLURRY_LEVEL_ADDR ERROR_REG
  let regs := Function.update regs PROCESSED_PRODUCT_LEVEL_ADDR ERROR_REG
  let regs := Function.update regs HEATER_ADDR ERROR_REG
  let regs := Function.update regs MIX_TANK_PRESSURE_ADDR ERROR_REG
  let regs := Function.update regs TANK_TEMP_LOWER_ADDR ERROR_REG
  let regs := Function.update regs TANK_TEMP_UPPER_ADDR ERROR_REG
  let regs := Function.update regs POWDER_MIXING_VOLUME_ADDR ERROR_REG
  let regs := Function.update regs LIQUID_MIXING_VOLUME_ADDR ERROR_REG
  let regs := Function.update regs PROD_FLOW_ADDR ERROR_REG
  let regs := Function.update regs PROD_FLOW_EST_MINUTE_ADDR ERROR_REG
  let coils := s.coils
  let coils := Function.update coils POWDER_INLET_ADDR ERROR_COIL
  let coils := Function.update coils LIQUID_INLET_ADDR ERROR_COIL
  let coils := Function.update coils MIXER_ADDR ERROR_COIL
  let coils := Function.update coils SAFETY_RELIEF_VALVE_ADDR ERROR_COIL
  let coils := Function.update coils OUTLET_VALVE_ADDR ERROR_COIL
  { s with holding_registers := regs, coils := coils }

/-- One pass of the update functions of the `simulate_data` loop
(lines 206–220), before the error overwrite. -/
def simulate_updates (r : Rand) (s : ProcState) : ProcState :=
  update_registers (update_tank_pressure (update_outlet_flow (process_chemicals r
    (update_temperature_from_heater (update_inlet_flows r
      (update_inlet_valve_positions (auto_step s)))))))

/-- One full iteration of the `simulate_data` loop (lines 206–226): the update
functions followed by the error overwrite when the process is malfunctioning. -/
def simulate_tick (r : Rand) (s : ProcState) : ProcState :=
  let s := simulate_updates r s
  if s.process_error then set_error_values s else s

/-- Successive simulation ticks driven by a list of random draws. -/
def run : List Rand → ProcState → ProcState
  | [], s => s
  | r :: rs, s => run rs (simulate_tick r s)

/-- The coil store built by `ModbusServer.__init__` (lines 186–194): all zeros,
with the six process coils explicitly (re)set to 0. -/
def init_coils : ℕ → ℤ :=
  Function.update (Function.update (Function.update (Function.update (Function.update
    (Function.update (fun _ => 0) POWDER_INLET_ADDR 0) LIQUID_INLET_ADDR 0)
    MIXER_ADDR 0) SAFETY_RELIEF_VALVE_ADDR 0) OUTLET_VALVE_ADDR 0) AUTO_CONTROL_ENABLE 0

/-- The holding-register store built by `ModbusServer.__init__`
(lines 133, 170–183). -/
def init_registers : ℕ → ℤ :=
  Function.update (Function.update (Function.update (Function.update (Function.update
    (Function.update (Function.update (Function.update (Function.update (Function.update
    (Function.update (Function.update (Function.update (Function.update
    (fun _ => 0)
    POWDER_TANK_LEVEL_ADDR 900) PROPORTIONAL_POWDER_FEED_ADDR 0)
    LIQUID_TANK_LEVEL_ADDR 900) PROPORTIONAL_LIQUID_FEED_ADDR 0)
    INTERMEDIATE_SLURRY_LEVEL_ADDR 0) PROCESSED_PRODUCT_LEVEL_ADDR 0)
    HEATER_ADDR 0) MIX_TANK_PRESSURE_ADDR 101)
    TANK_TEMP_LOWER_ADDR 20) TANK_TEMP_UPPER_ADDR 20)
    POWDER_MIXING_VOLUME_ADDR 0) LIQUID_MIXING_VOLUME_ADDR 0)
    PROD_FLOW_ADDR 0) PROD_FLOW_EST_MINUTE_ADDR 0

/-- The state of `ModbusServer` immediately after `__init__` (lines 128–194),
before any tick or request. -/
def initState : ProcState :=
  { coils := init_coils
    holding_registers := init_registers
    powder_inlet := 0
    powder_inlet_prop := 0
    liquid_inlet := 0
    liquid_inlet_prop := 0
    outlet_valve_position := 0
    powder_tank_level := 900
    liquid_tank_level := 900
    powder_mix_tank_level := 0
    liquid_mix_tank_level := 0
    processed_mix_tank_level := 0
    powder_inlet_flow := 0
    liquid_inlet_flow := 0
    product_outlet_flow := 0
    product_outlet_flow_history := []
    temperature_upper := 20
    temperature_lower := 20
    upper_temp_history := List.replicate 10 20
    lower_temp_history := List.replicate 10 20
    tank_pressure := 101
    process_error := false }

/-! ## Quiescent states

A family of states that the tick maps into itself whenever the six process
coils command nothing, the heater register is 0 and the proportional targets
are the only degrees of freedom: all physical quantities sit at their initial
values, only the two proportional valve positions and the length of the
outlet-flow history vary. -/

/-- A quiescent state: initial physical quantities, proportional positions
`pp`/`lp`, and an outlet-flow history of `m` zero entries. -/
def quietState (cs regs : ℕ → ℤ) (pp lp : ℚ) (m : ℕ) : ProcState :=
  { coils := cs
    holding_registers := regs
    powder_inlet := 0
    powder_inlet_prop := pp
    liquid_inlet := 0
    liquid_inlet_prop := lp
    outlet_valve_position := 0
    powder_tank_level := 900
    liquid_tank_level := 900
    powder_mix_tank_level := 0
    liquid_mix_tank_level := 0
    processed_mix_tank_level := 0
    powder_inlet_flow := 0
    liquid_inlet_flow := 0
    product_outlet_flow := 0
    product_outlet_flow_history := List.replicate m 0
    temperature_upper := 20
    temperature_lower := 20
    upper_temp_history := List.replicate 10 20
    lower_temp_history := List.replicate 10 20
    tank_pressure := 101
    process_error := false }

/-- The register writes `update_registers` performs on a quiescent state. -/
def quiet_register_write (regs : ℕ → ℤ) : ℕ → ℤ :=
  Function.update (Function.update (Function.update (Function.update (Function.update
    (Function.update (Function.update (Function.update (Function.update (Function.update
    (Function.update regs
    POWDER_TANK_LEVEL_ADDR 900) LIQUID_TANK_LEVEL_ADDR 900)
    POWDER_MIXING_VOLUME_ADDR 0) LIQUID_MIXING_VOLUME_ADDR 0)
    PROCESSED_PRODUCT_LEVEL_ADDR 0) INTERMEDIATE_SLURRY_LEVEL_ADDR 0)
    TANK_TEMP_UPPER_ADDR 20) TANK_TEMP_LOWER_ADDR 20)
    PROD_FLOW_ADDR 0) PROD_FLOW_EST_MINUTE_ADDR 0)
    MIX_TANK_PRESSURE_ADDR 101

/-- Specification-side predicate: one movement from `old` to `new` goes
monotonically toward `tgt` and changes by at most `inc`. -/
def steps_toward (old new tgt inc : ℚ) : Prop :=
  (old ≤ tgt ∧ old ≤ new ∧ new ≤ tgt ∧ new - old ≤ inc) ∨
  (tgt ≤ old ∧ tgt ≤ new ∧ new ≤ old ∧ old - new ≤ inc)

/-! ## Codec lemmas -/

theorem beToNat_u16be (v : ℕ) (h : v ≤ 65535) : beToNat (u16hi v) (u16lo v) = v := by
  have h1 : v / 256 < 256 := by omega
  simp only [beToNat, u16hi, u16lo, Nat.mod_eq_of_lt h1]
  omega

theorem u16hi_lt (v : ℕ) : u16hi v < 256 := Nat.mod_lt _ (by norm_num)

theorem u16lo_lt (v : ℕ) : u16lo v < 256 := Nat.mod_lt _ (by norm_num)

theorem on_off_valve_step_closed {c : ℤ} (h : c = 0) : on_off_valve_step c 0 = 0 := by
  norm_num [on_off_valve_step, h]

theorem auto_step_quiet {cs regs pp lp m} (h205 : cs AUTO_CONTROL_ENABLE ≠ 1) :
    auto_step (quietState cs regs pp lp m) = quietState cs regs pp lp m := by
  have h : (quietState cs regs pp lp m).coils AUTO_CONTROL_ENABLE ≠ 1 := h205
  unfold auto_step
  rw [if_neg h]

theorem update_inlet_valve_positions_quiet {cs regs pp lp m}
    (h200 : cs POWDER_INLET_ADDR = 0) (h201 : cs LIQUID_INLET_ADDR = 0) :
    update_inlet_valve_positions (quietState cs regs pp lp m) =
      quietState cs regs (prop_valve_step pp ((regs PROPORTIONAL_POWDER_FEED_ADDR : ℤ) : ℚ))
        (prop_valve_step lp ((regs PROPORTIONAL_LIQUID_FEED_ADDR : ℤ) : ℚ)) m := by
  simp only [update_inlet_valve_positions, quietState,
    on_off_valve_step_closed h200, on_off_valve_step_closed h201]

theorem update_inlet_flows_quiet {cs regs pp lp m} (r : Rand) (hpp : 0 ≤ pp) (hlp : 0 ≤ lp) :
    update_inlet_flows r (quietState cs regs pp lp m) = quietState cs regs pp lp m := by
  simp only [update_inlet_flows, quietState, min_eq_left hpp, min_eq_left hlp]
  norm_num

theorem update_temperature_from_heater_quiet {cs regs pp lp m} (h236 : regs HEATER_ADDR = 0) :
    update_temperature_from_heater (quietState cs regs pp lp m) = quietState cs regs pp lp m := by
  have htail : (List.replicate 10 (20 : ℚ)).tail ++ [(20 : ℚ)] = List.replicate 10 20 := rfl
  have hhead : (List.replicate 10 (20 : ℚ)).headI = 20 := rfl
  simp only [update_temperature_from_heater, quietState, h236, hhead, htail]
  norm_num

theorem process_chemicals_quiet {cs regs pp lp m} (r : Rand) :
    process_chemicals r (quietState cs regs pp lp m) = quietState cs regs pp lp m := by
  have hreact : react r (quietState cs regs pp lp m) = quietState cs regs pp lp m := by
    simp only [react, quietState]
    norm_num
  have h1 : ¬ overfill_fault (quietState cs regs pp lp m) := by
    simp [overfill_fault, quietState]
  have h2 : ¬ outlet_fault (quietState cs regs pp lp m) := by
    simp [outlet_fault, quietState]
  have h3 : ¬ ignition_fault (quietState cs regs pp lp m) := by
    simp [ignition_fault, quietState]
  simp only [process_chemicals, hreact, chem_fault_check, decide_eq_false h1,
    decide_eq_false h2, decide_eq_false h3, Bool.or_false]

theorem update_outlet_flow_quiet {cs regs pp lp m} (h204 : cs OUTLET_VALVE_ADDR = 0)
    (hm : m ≤ 60) :
    update_outlet_flow (quietState cs regs pp lp m) =
      quietState cs regs pp lp (min (m + 1) 60) := by
  have hrep : List.replicate m (0 : ℚ) ++ [(0 : ℚ)] = List.replicate (m + 1) 0 :=
    (List.replicate_succ' m 0).symm
  simp only [update_outlet_flow, quietState, on_off_valve_step_closed h204]
  norm_num
  rcases Nat.lt_or_ge m 60 with hlt | hge
  · rw [if_neg (by omega : ¬ 60 < m + 1), min_eq_left (by omega : m + 1 ≤ 60)]
    exact hrep
  · have hm60 : m = 60 := le_antisymm hm hge
    subst hm60
    rw [if_pos (by omega : 60 < 60 + 1), hrep]
    rfl

theorem update_tank_pressure_quiet {cs regs pp lp m} (h203 : cs SAFETY_RELIEF_VALVE_ADDR = 0) :
    update_tank_pressure (quietState cs regs pp lp m) = quietState cs regs pp lp m := by
  have hstep : pressure_step (quietState cs regs pp lp m) = quietState cs regs pp lp m := by
    simp only [pressure_step, quietState, h203]
    norm_num
  have h4 : ¬ pressure_fault (quietState cs regs pp lp m) := by
    simp only [pressure_fault, quietState]
    norm_num
  simp only [update_tank_pressure, hstep, decide_eq_false h4, Bool.or_false]

theorem pyInt_intCast (n : ℤ) : pyInt (n : ℚ) = n := by
  unfold pyInt
  rcases lt_or_ge (n : ℚ) 0 with h | h
  · rw [if_pos h, Int.ceil_intCast]
  · rw [if_neg (not_lt.mpr h), Int.floor_intCast]

theorem pyRound_intCast (n : ℤ) : pyRound (n : ℚ) = n := by
  unfold pyRound
  rw [Int.floor_intCast]
  norm_num

theorem pyInt_ofNat (n : ℕ) : pyInt (n : ℚ) = n := by
  have : ((n : ℤ) : ℚ) = (n : ℚ) := by push_cast; ring
  rw [← this, pyInt_intCast]

theorem pyRound_ofNat (n : ℕ) : pyRound (n : ℚ) = n := by
  have : ((n : ℤ) : ℚ) = (n : ℚ) := by push_cast; ring
  rw [← this, pyRound_intCast]

theorem update_registers_quiet {cs regs pp lp m} (hm : 1 ≤ m) :
    update_registers (quietState cs regs pp lp m) =
      quietState cs (quiet_register_write regs) pp lp m := by
  have hne : List.replicate m (0 : ℚ) ≠ [] := by
    intro hcon
    have := congrArg List.length hcon
    simp at this
    omega
  have havg : get_average_outlet_flow_per_minute (quietState cs regs pp lp m) = 0 := by
    simp only [get_average_outlet_flow_per_minute, quietState]
    rw [if_pos hne, List.sum_replicate]
    norm_num
  have h900 : pyInt (900 : ℚ) = 900 := pyInt_ofNat 900
  have h0 : pyInt (0 : ℚ) = 0 := pyInt_ofNat 0
  have h00 : pyInt ((0 : ℚ) + 0) = 0 := by rw [add_zero]; exact pyInt_ofNat 0
  have h20 : pyRound (20 : ℚ) = 20 := pyRound_ofNat 20
  have h101 : pyRound (101 : ℚ) = 101 := pyRound_ofNat 101
  have hr0 : pyRound (0 : ℚ) = 0 := pyRound_ofNat 0
  simp only [quietState] at havg
  simp only [update_registers, quietState, havg, quiet_register_write,
    h900, h0, h00, h20, h101, hr0]

theorem prop_valve_step_nonneg {pos tgt : ℚ} (h : 0 ≤ pos) (htgt : 0 ≤ tgt) :
    0 ≤ prop_valve_step pos tgt := by
  unfold prop_valve_step PROPORTIONAL_VALVE_INCREMENT
  split_ifs with h1 h2
  · exact le_min (by linarith) (by linarith)
  · exact le_max_of_le_right htgt
  · exact h

/-- One tick on a quiescent state with all process coils off and heater 0:
the proportional valves step toward their targets, the registers are
refreshed with their quiescent values, the history saturates at 60, and
everything else is unchanged. -/
theorem simulate_tick_quiet {cs regs : ℕ → ℤ} {pp lp : ℚ} {m : ℕ} (r : Rand)
    (h200 : cs POWDER_INLET_ADDR = 0) (h201 : cs LIQUID_INLET_ADDR = 0)
    (h203 : cs SAFETY_RELIEF_VALVE_ADDR = 0) (h204 : cs OUTLET_VALVE_ADDR = 0)
    (h205 : cs AUTO_CONTROL_ENABLE ≠ 1) (h236 : regs HEATER_ADDR = 0)
    (h231 : 0 ≤ regs PROPORTIONAL_POWDER_FEED_ADDR)
    (h233 : 0 ≤ regs PROPORTIONAL_LIQUID_FEED_ADDR)
    (hpp : 0 ≤ pp) (hlp : 0 ≤ lp) (hm : m ≤ 60) :
    simulate_tick r (quietState cs regs pp lp m) =
      quietState cs (quiet_register_write regs)
        (prop_valve_step pp ((regs PROPORTIONAL_POWDER_FEED_ADDR : ℤ) : ℚ))
        (prop_valve_step lp ((regs PROPORTIONAL_LIQUID_FEED_ADDR : ℤ) : ℚ))
        (min (m + 1) 60) := by
  have hpp' : 0 ≤ prop_valve_step pp ((regs PROPORTIONAL_POWDER_FEED_ADDR : ℤ) : ℚ) :=
    prop_valve_step_nonneg hpp (by exact_mod_cast h231)
  have hlp' : 0 ≤ prop_valve_step lp ((regs PROPORTIONAL_LIQUID_FEED_ADDR : ℤ) : ℚ) :=
    prop_valve_step_nonneg hlp (by exact_mod_cast h233)
  unfold simulate_tick simulate_updates
  rw [auto_step_quiet h205, update_inlet_valve_positions_quiet h200 h201,
    update_inlet_flows_quiet r hpp' hlp', update_temperature_from_heater_quiet h236,
    process_chemicals_quiet r, update_outlet_flow_quiet h204 hm,
    update_tank_pressure_quiet h203,
    update_registers_quiet (by omega : 1 ≤ min (m + 1) 60)]
  rfl

/-! ## Frame-shape lemmas

Every response the server builds has the shape
`u16be tid ++ u16be pid ++ u16be len ++ [unit, fc] ++ tail`; these lemmas read
single bytes out of that shape. -/

theorem frame_getD4 (a b c u f : ℕ) (l : List ℕ) :
    (u16be a ++ u16be b ++ u16be c ++ [u, f] ++ l).getD 4 0 = u16hi c := rfl

theorem frame_getD5 (a b c u f : ℕ) (l : List ℕ) :
    (u16be a ++ u16be b ++ u16be c ++ [u, f] ++ l).getD 5 0 = u16lo c := rfl

theorem frame_getD7 (a b c u f : ℕ) (l : List ℕ) :
    (u16be a ++ u16be b ++ u16be c ++ [u, f] ++ l).getD 7 0 = f := rfl

theorem frame_getD8 (a b c u f x : ℕ) (l : List ℕ) :
    (u16be a ++ u16be b ++ u16be c ++ [u, f] ++ [x] ++ l).getD 8 0 = x := rfl

theorem frame6_getD4 (a b c u f x : ℕ) (l : List ℕ) :
    (u16be a ++ u16be b ++ u16be c ++ [u, f] ++ [x] ++ l).getD 4 0 = u16hi c := rfl

theorem frame6_getD5 (a b c u f x : ℕ) (l : List ℕ) :
    (u16be a ++ u16be b ++ u16be c ++ [u, f] ++ [x] ++ l).getD 5 0 = u16lo c := rfl

theorem frame6_getD7 (a b c u f x : ℕ) (l : List ℕ) :
    (u16be a ++ u16be b ++ u16be c ++ [u, f] ++ [x] ++ l).getD 7 0 = f := rfl

theorem frameW_getD7 (a b c u f d e : ℕ) :
    (u16be a ++ u16be b ++ u16be c ++ [u, f] ++ u16be d ++ u16be e).getD 7 0 = f := rfl

theorem exceptionResponse_getD7 (a b u f : ℕ) :
    (exceptionResponse a b u f).getD 7 0 = f ||| 0x80 := rfl

theorem exceptionResponse_getD8 (a b u f : ℕ) :
    (exceptionResponse a b u f).getD 8 0 = 0x01 := rfl

/-- C2.  For every request whose function code is not 1, 3, 5 or 6, the
handler returns, without touching the store, the exception response that
echoes the request's transaction id, protocol id and unit id, carries the
request's function code or-ed with 0x80, and has exception code 0x01; and
every response whose function-code byte has the exception bit set is such a
frame, so 0x01 is the only exception code the server ever emits. -/
theorem claim_C2 :
    (∀ (coils holding_registers : ℕ → ℤ) (request : List ℕ) (pr : ParsedRequest),
      parseRequest request = some pr →
      pr.function_code ≠ 1 → pr.function_code ≠ 3 →
      pr.function_code ≠ 5 → pr.function_code ≠ 6 →
      handle_request coils holding_registers request =
        some (coils, holding_registers,
          exceptionResponse pr.transaction_id pr.protocol_id pr.unit_id pr.function_code)) ∧
    (∀ (coils holding_registers : ℕ → ℤ) (request : List ℕ)
      (coils' holding_registers' : ℕ → ℤ) (resp : List ℕ),
      handle_request coils holding_registers request = some (coils', holding_registers', resp) →
      0x80 ≤ resp.getD 7 0 →
      ∃ pr, parseRequest request = some pr ∧
        resp = exceptionResponse pr.transaction_id pr.protocol_id pr.unit_id pr.function_code ∧
        resp.getD 8 0 = 0x01) := by
  constructor
  · intro coils holding_registers request pr hparse h1 h3 h5 h6
    simp only [handle_request, hparse, if_neg h1, if_neg h3, if_neg h5, if_neg h6]
  · intro coils holding_registers request coils' holding_registers' resp hreq hbit
    match hparse : parseRequest request with
    | none => simp [handle_request, hparse] at hreq
    | some pr =>
      refine ⟨pr, rfl, ?_⟩
      by_cases h1 : pr.function_code = 1
      · exfalso
        simp only [handle_request, hparse, if_pos h1] at hreq
        match hp4 : parse4 pr.data with
        | none => simp only [hp4] at hreq; exact Option.noConfusion hreq
        | some (addr, count) =>
          simp only [hp4] at hreq
          by_cases hg1 : (count + 7) / 8 ≤ 255
          swap
          · rw [if_neg hg1] at hreq; exact Option.noConfusion hreq
          by_cases hg2 : ∀ i < count, addr + i < 65536
          swap
          · rw [if_pos hg1, if_neg hg2] at hreq; exact Option.noConfusion hreq
          rw [if_pos hg1, if_pos hg2] at hreq
          simp only [Option.some.injEq, Prod.mk.injEq] at hreq
          obtain ⟨-, -, hresp⟩ := hreq
          rw [← hresp, frame6_getD7, h1] at hbit
          omega
      by_cases h3 : pr.function_code = 3
      · exfalso
        simp only [handle_request, hparse, if_neg h1, if_pos h3] at hreq
        match hp4 : parse4 pr.data with
        | none => simp only [hp4] at hreq; exact Option.noConfusion hreq
        | some (addr, count) =>
          simp only [hp4] at hreq
          by_cases hg1 : ∀ i < count, addr + i < 65536 ∧
              0 ≤ holding_registers (addr + i) ∧ holding_registers (addr + i) ≤ 65535
          swap
          · rw [if_neg hg1] at hreq; exact Option.noConfusion hreq
          by_cases hg2 : count * 2 ≤ 255
          swap
          · rw [if_pos hg1, if_neg hg2] at hreq; exact Option.noConfusion hreq
          rw [if_pos hg1, if_pos hg2] at hreq
          simp only [Option.some.injEq, Prod.mk.injEq] at hreq
          obtain ⟨-, -, hresp⟩ := hreq
          rw [← hresp, frame6_getD7, h3] at hbit
          omega
      by_cases h5 : pr.function_code = 5
      · exfalso
        simp only [handle_request, hparse, if_neg h1, if_neg h3, if_pos h5] at hreq
        match hp4 : parse4 pr.data with
        | none => simp only [hp4] at hreq; exact Option.noConfusion hreq
        | some (addr, value) =>
          simp only [hp4] at hreq
          simp only [Option.some.injEq, Prod.mk.injEq] at hreq
          obtain ⟨-, -, hresp⟩ := hreq
          rw [← hresp, frameW_getD7, h5] at hbit
          omega
      by_cases h6 : pr.function_code = 6
      · exfalso
        simp only [handle_request, hparse, if_neg h1, if_neg h3, if_neg h5, if_pos h6] at hreq
        match hp4 : parse4 pr.data with
        | none => simp only [hp4] at hreq; exact Option.noConfusion hreq
        | some (addr, value) =>
          simp only [hp4] at hreq
          simp only [Option.some.injEq, Prod.mk.injEq] at hreq
          obtain ⟨-, -, hresp⟩ := hreq
          rw [← hresp, frameW_getD7, h6] at hbit
          omega
      · simp only [handle_request, hparse, if_neg h1, if_neg h3, if_neg h5, if_neg h6,
          Option.some.injEq, Prod.mk.injEq] at hreq
        exact ⟨hreq.2.2.symm, by rw [hreq.2.2.symm, exceptionResponse_getD8]⟩

/-- Witness for C2: sending function code 2 to the fresh server yields the
exception frame with function code 0x82 (= 130) and exception code 0x01, and
likewise function code 4 yields 0x84 (= 132). -/
theorem claim_C2_witness :
    parseRequest [0, 9, 0, 0, 0, 6, 1, 2, 0, 230, 0, 3] =
      some ⟨9, 0, 6, 1, 2, [0, 230, 0, 3]⟩ ∧
    handle_request init_coils init_registers [0, 9, 0, 0, 0, 6, 1, 2, 0, 230, 0, 3] =
      some (init_coils, init_registers, [0, 9, 0, 0, 0, 3, 1, 130, 1]) ∧
    handle_request init_coils init_registers [0, 9, 0, 0, 0, 6, 1, 4, 0, 230, 0, 3] =
      some (init_coils, init_registers, [0, 9, 0, 0, 0, 3, 1, 132, 1]) := by
  refine ⟨rfl, ?_, ?_⟩
  · have h := claim_C2.1 init_coils init_registers [0, 9, 0, 0, 0, 6, 1, 2, 0, 230, 0, 3]
      ⟨9, 0, 6, 1, 2, [0, 230, 0, 3]⟩ rfl (by decide) (by decide) (by decide) (by decide)
    exact h
  · have h := claim_C2.1 init_coils init_registers [0, 9, 0, 0, 0, 6, 1, 4, 0, 230, 0, 3]
      ⟨9, 0, 6, 1, 4, [0, 230, 0, 3]⟩ rfl (by decide) (by decide) (by decide) (by decide)
    exact h

/-- C6.  In the freshly constructed server state, every coil is 0 (in
particular coils 200–205), registers 230–243 hold 900, 0, 900, 0, 0, 0, 0,
101, 20, 20, 0, 0, 0, 0 in address order, and every register outside 230–243
is 0. -/
theorem claim_C6 :
    (∀ a, initState.coils a = 0) ∧
    initState.holding_registers 230 = 900 ∧ initState.holding_registers 231 = 0 ∧
    initState.holding_registers 232 = 900 ∧ initState.holding_registers 233 = 0 ∧
    initState.holding_registers 234 = 0 ∧ initState.holding_registers 235 = 0 ∧
    initState.holding_registers 236 = 0 ∧ initState.holding_registers 237 = 101 ∧
    initState.holding_registers 238 = 20 ∧ initState.holding_registers 239 = 20 ∧
    initState.holding_registers 240 = 0 ∧ initState.holding_registers 241 = 0 ∧
    initState.holding_registers 242 = 0 ∧ initState.holding_registers 243 = 0 ∧
    (∀ a, a < 230 ∨ 243 < a → initState.holding_registers a = 0) := by
  refine ⟨?_, rfl, rfl, rfl, rfl, rfl, rfl, rfl, rfl, rfl, rfl, rfl, rfl, rfl, rfl, ?_⟩
  · intro a
    show init_coils a = 0
    unfold init_coils
    simp only [Function.update_apply]
    split_ifs <;> rfl
  · intro a ha
    show init_registers a = 0
    unfold init_registers
    rw [Function.update_noteq (by omega : a ≠ 243), Function.update_noteq (by omega : a ≠ 242),
      Function.update_noteq (by omega : a ≠ 241), Function.update_noteq (by omega : a ≠ 240),
      Function.update_noteq (by omega : a ≠ 239), Function.update_noteq (by omega : a ≠ 238),
      Function.update_noteq (by omega : a ≠ 237), Function.update_noteq (by omega : a ≠ 236),
      Function.update_noteq (by omega : a ≠ 235), Function.update_noteq (by omega : a ≠ 234),
      Function.update_noteq (by omega : a ≠ 233), Function.update_noteq (by omega : a ≠ 232),
      Function.update_noteq (by omega : a ≠ 231), Function.update_noteq (by omega : a ≠ 230)]

/-- Witness for C6: the out-of-range clause at register 5. -/
theorem claim_C6_witness :
    ((5 : ℕ) < 230 ∨ 243 < 5) ∧ initState.holding_registers 5 = 0 :=
  ⟨Or.inl (by decide), claim_C6.2.2.2.2.2.2.2.2.2.2.2.2.2.2.2 5 (Or.inl (by decide))⟩

/-! ## Frame dispatch lemmas -/

theorem parseRequest_frame (t p l u f a v : ℕ) :
    parseRequest (u16be t ++ u16be p ++ u16be l ++ [u, f] ++ u16be a ++ u16be v) =
      some ⟨beToNat (u16hi t) (u16lo t), beToNat (u16hi p) (u16lo p),
        beToNat (u16hi l) (u16lo l), u, f, u16be a ++ u16be v⟩ := rfl

theorem parse4_frame (a v : ℕ) :
    parse4 (u16be a ++ u16be v) =
      some (beToNat (u16hi a) (u16lo a), beToNat (u16hi v) (u16lo v)) := rfl

theorem beToNat_zero : beToNat (u16hi 0) (u16lo 0) = 0 := rfl

theorem beToNat_six : beToNat (u16hi 6) (u16lo 6) = 6 := rfl

/-- Client-built frame parsed by the server: the fields come back exactly. -/
theorem parseRequest_client_frame (t u f a v : ℕ) (ht : t ≤ 65535) :
    parseRequest (u16be t ++ u16be 0 ++ u16be 6 ++ [u, f] ++ u16be a ++ u16be v) =
      some ⟨t, 0, 6, u, f, u16be a ++ u16be v⟩ := by
  rw [parseRequest_frame, beToNat_u16be t ht, beToNat_zero, beToNat_six]

theorem parse4_client (a v : ℕ) (ha : a ≤ 65535) (hv : v ≤ 65535) :
    parse4 (u16be a ++ u16be v) = some (a, v) := by
  rw [parse4_frame, beToNat_u16be a ha, beToNat_u16be v hv]

/-- Dispatch of a write-single-register frame: the register is updated with
the written value and the request bytes are echoed. -/
theorem handle_write_register (coils holding_registers : ℕ → ℤ) (t u a v : ℕ)
    (ht : t ≤ 65535) (ha : a ≤ 65535) (hv : v ≤ 65535) :
    handle_request coils holding_registers
        (u16be t ++ u16be 0 ++ u16be 6 ++ [u, 6] ++ u16be a ++ u16be v) =
      some (coils, Function.update holding_registers a (v : ℤ),
        u16be t ++ u16be 0 ++ u16be 6 ++ [u, 6] ++ u16be a ++ u16be v) := by
  rw [handle_request, parseRequest_client_frame t u 6 a v ht]
  simp only [if_neg (by decide : (6 : ℕ) ≠ 1), if_neg (by decide : (6 : ℕ) ≠ 3),
    if_neg (by decide : (6 : ℕ) ≠ 5), if_pos (rfl : (6 : ℕ) = 6), if_true,
    parse4_client a v ha hv]

/-- Dispatch of a write-single-coil frame: the coil becomes 1 exactly when the
value is 0xFF00, and the request bytes are echoed. -/
theorem handle_write_coil (coils holding_registers : ℕ → ℤ) (t u a w : ℕ)
    (ht : t ≤ 65535) (ha : a ≤ 65535) (hw : w ≤ 65535) :
    handle_request coils holding_registers
        (u16be t ++ u16be 0 ++ u16be 6 ++ [u, 5] ++ u16be a ++ u16be w) =
      some (Function.update coils a (if w = 0xFF00 then (1 : ℤ) else 0), holding_registers,
        u16be t ++ u16be 0 ++ u16be 6 ++ [u, 5] ++ u16be a ++ u16be w) := by
  rw [handle_request, parseRequest_client_frame t u 5 a w ht]
  simp only [if_neg (by decide : (5 : ℕ) ≠ 1), if_neg (by decide : (5 : ℕ) ≠ 3),
    if_pos (rfl : (5 : ℕ) = 5), if_true, parse4_client a w ha hw]

/-- Dispatch of a read-holding-registers frame. -/
theorem handle_read_registers (coils holding_registers : ℕ → ℤ) (t u a q : ℕ)
    (ht : t ≤ 65535) (ha : a ≤ 65535) (hq : q ≤ 65535)
    (haq : a + q ≤ 65536) (hbc : q * 2 ≤ 255)
    (hvals : ∀ i < q, 0 ≤ holding_registers (a + i) ∧ holding_registers (a + i) ≤ 65535) :
    handle_request coils holding_registers
        (u16be t ++ u16be 0 ++ u16be 6 ++ [u, 3] ++ u16be a ++ u16be q) =
      some (coils, holding_registers,
        u16be t ++ u16be 0 ++ u16be (3 + q * 2) ++ [u, 3] ++ [q * 2] ++
          (List.range q).flatMap (fun i => u16be (holding_registers (a + i)).toNat)) := by
  have hguard : ∀ i < q, a + i < 65536 ∧ 0 ≤ holding_registers (a + i) ∧
      holding_registers (a + i) ≤ 65535 :=
    fun i hi => ⟨by omega, (hvals i hi).1, (hvals i hi).2⟩
  rw [handle_request, parseRequest_client_frame t u 3 a q ht]
  simp only [if_neg (by decide : (3 : ℕ) ≠ 1), if_pos (rfl : (3 : ℕ) = 3), if_true,
    parse4_client a q ha hq]
  rw [if_pos hguard, if_pos hbc]

/-- Dispatch of a read-coils frame. -/
theorem handle_read_coils (coils holding_registers : ℕ → ℤ) (t u a q : ℕ)
    (ht : t ≤ 65535) (ha : a ≤ 65535) (hq : q ≤ 65535)
    (haq : a + q ≤ 65536) (hbc : (q + 7) / 8 ≤ 255) :
    handle_request coils holding_registers
        (u16be t ++ u16be 0 ++ u16be 6 ++ [u, 1] ++ u16be a ++ u16be q) =
      some (coils, holding_registers,
        u16be t ++ u16be 0 ++ u16be (3 + (q + 7) / 8) ++ [u, 1] ++ [(q + 7) / 8] ++
          packCoilData ((List.range q).map
            (fun i => if coils (a + i) = 1 then 1 else 0)) q) := by
  have hguard : ∀ i < q, a + i < 65536 := fun i hi => by omega
  rw [handle_request, parseRequest_client_frame t u 1 a q ht]
  simp only [if_pos (rfl : (1 : ℕ) = 1), if_true, parse4_client a q ha hq]
  rw [if_pos hbc, if_pos hguard]

/-- The client encoder on the supported non-coil-write function codes. -/
theorem send_request_eq (t u f a q : ℕ) (hf : f = 1 ∨ f = 2 ∨ f = 3 ∨ f = 4 ∨ f = 6)
    (ht : t ≤ 65535) (hu : u ≤ 255) (ha : a ≤ 65535) (hq : q ≤ 65535) :
    send_request t u f a q =
      some (u16be t ++ u16be 0 ++ u16be 6 ++ [u, f] ++ u16be a ++ u16be q) := by
  rw [send_request, if_pos hf, if_pos ⟨ht, hu, ha, hq⟩]

/-- The client encoder on write-single-coil: value 1 becomes 0xFF00, anything
else becomes 0x0000. -/
theorem send_request_coil_eq (t u a q : ℕ) (ht : t ≤ 65535) (hu : u ≤ 255) (ha : a ≤ 65535) :
    send_request t u 5 a q =
      some (u16be t ++ u16be 0 ++ u16be 6 ++ [u, 5] ++ u16be a ++
        u16be (if q = 1 then 0xFF00 else 0)) := by
  rw [send_request, if_neg (by decide), if_pos rfl, if_pos ⟨ht, hu, ha⟩]

/-! ## Client decode lemmas -/

theorem receive_write6_frame (t u a v : ℕ) :
    receive_response (u16be t ++ u16be 0 ++ u16be 6 ++ [u, 6] ++ u16be a ++ u16be v) =
      some ⟨beToNat (u16hi t) (u16lo t), 0, 6, u, 6, 4,
        .write_echo (beToNat (u16hi a) (u16lo a)) (beToNat (u16hi v) (u16lo v))⟩ := rfl

theorem receive_write5_frame (t u a v : ℕ) :
    receive_response (u16be t ++ u16be 0 ++ u16be 6 ++ [u, 5] ++ u16be a ++ u16be v) =
      some ⟨beToNat (u16hi t) (u16lo t), 0, 6, u, 5, 4,
        .write_echo (beToNat (u16hi a) (u16lo a)) (beToNat (u16hi v) (u16lo v))⟩ := rfl

/-- Decoding a write echo recovers the address and value the server packed. -/
theorem receive_write6 (t u a v : ℕ) (ht : t ≤ 65535) (ha : a ≤ 65535) (hv : v ≤ 65535) :
    receive_response (u16be t ++ u16be 0 ++ u16be 6 ++ [u, 6] ++ u16be a ++ u16be v) =
      some ⟨t, 0, 6, u, 6, 4, .write_echo a v⟩ := by
  rw [receive_write6_frame, beToNat_u16be t ht, beToNat_u16be a ha, beToNat_u16be v hv]

theorem receive_write5 (t u a v : ℕ) (ht : t ≤ 65535) (ha : a ≤ 65535) (hv : v ≤ 65535) :
    receive_response (u16be t ++ u16be 0 ++ u16be 6 ++ [u, 5] ++ u16be a ++ u16be v) =
      some ⟨t, 0, 6, u, 5, 4, .write_echo a v⟩ := by
  rw [receive_write5_frame, beToNat_u16be t ht, beToNat_u16be a ha, beToNat_u16be v hv]

theorem length_packCoilData (bits : List ℕ) (q : ℕ) :
    (packCoilData bits q).length = (q + 7) / 8 := by
  simp only [packCoilData, List.length_append, List.length_map, List.length_range]
  split_ifs with h
  · simp only [List.length_singleton]
    omega
  · simp only [List.length_nil]
    omega

theorem length_flatMap_u16be {α : Type} (f : α → ℕ) (l : List α) :
    (l.flatMap (fun x => u16be (f x))).length = l.length * 2 := by
  induction l with
  | nil => rfl
  | cons x xs ih =>
    rw [List.flatMap_cons, List.length_append, ih, List.length_cons,
      show (u16be (f x)).length = 2 from rfl]
    omega

theorem wordsOf_flatMap {α : Type} (f : α → ℕ) (l : List α) (h : ∀ x ∈ l, f x ≤ 65535) :
    wordsOf (l.flatMap (fun x => u16be (f x))) = l.map f := by
  induction l with
  | nil => rfl
  | cons x xs ih =>
    rw [List.flatMap_cons, List.map_cons]
    show wordsOf (u16hi (f x) :: u16lo (f x) :: xs.flatMap (fun x => u16be (f x))) = _
    rw [wordsOf, beToNat_u16be (f x) (h x (List.mem_cons_self x xs)),
      ih (fun y hy => h y (List.mem_cons_of_mem x hy))]

/-- Decoding a read-holding-registers response recovers the byte count and the
packed word values. -/
theorem receive_read_registers (t u q : ℕ) (data : List ℕ) (ht : t ≤ 65535)
    (hbc : q * 2 ≤ 255) (hdata : data.length = q * 2) :
    receive_response (u16be t ++ u16be 0 ++ u16be (3 + q * 2) ++ [u, 3] ++ [q * 2] ++ data) =
      some ⟨t, 0, 3 + q * 2, u, 3, q * 2, .words (wordsOf data)⟩ := by
  have hL : beToNat (u16hi (3 + q * 2)) (u16lo (3 + q * 2)) = 3 + q * 2 :=
    beToNat_u16be _ (by omega)
  show receive_response (u16hi t :: u16lo t :: u16hi 0 :: u16lo 0 :: u16hi (3 + q * 2) ::
      u16lo (3 + q * 2) :: u :: 3 :: q * 2 :: data) = _
  rw [receive_response]
  simp only [hL, beToNat_u16be t ht]
  rw [show 3 + q * 2 - 1 = (q * 2 + 1) + 1 from by omega, List.take_succ_cons,
    List.take_succ_cons, ← hdata, List.take_length]
  norm_num [beToNat_zero]
  intro hcon
  exact absurd (by omega : data.length + 1 = 1 + 2 * (data.length / 2)) hcon

/-- Decoding a read-coils response recovers the byte count and the packed
coil-data bytes. -/
theorem receive_read_coils (t u bc : ℕ) (data : List ℕ) (ht : t ≤ 65535)
    (hbc : bc ≤ 255) (hdata : data.length = bc) :
    receive_response (u16be t ++ u16be 0 ++ u16be (3 + bc) ++ [u, 1] ++ [bc] ++ data) =
      some ⟨t, 0, 3 + bc, u, 1, bc, .coil_bytes data⟩ := by
  have hL : beToNat (u16hi (3 + bc)) (u16lo (3 + bc)) = 3 + bc :=
    beToNat_u16be _ (by omega)
  show receive_response (u16hi t :: u16lo t :: u16hi 0 :: u16lo 0 :: u16hi (3 + bc) ::
      u16lo (3 + bc) :: u :: 1 :: bc :: data) = _
  rw [receive_response]
  simp only [hL, beToNat_u16be t ht]
  rw [show 3 + bc - 1 = (bc + 1) + 1 from by omega, List.take_succ_cons,
    List.take_succ_cons, ← hdata, List.take_length]
  norm_num [beToNat_zero]

theorem packCoilData_single (x : ℕ) : packCoilData [x] 1 = [x] := by
  simp [packCoilData, bitsToByte]

/-- C3.  Every read-coils response the server produces carries byte count
`(count + 7) / 8 = ceil(count/8)` and header length field
`3 + (count + 7) / 8`; every read-holding-registers response carries byte
count `count * 2` and header length field `3 + count * 2`. -/
theorem claim_C3 :
    (∀ (coils holding_registers : ℕ → ℤ) (request : List ℕ) (pr : ParsedRequest)
      (address count : ℕ) (coils' holding_registers' : ℕ → ℤ) (resp : List ℕ),
      parseRequest request = some pr → pr.function_code = 1 →
      parse4 pr.data = some (address, count) →
      handle_request coils holding_registers request = some (coils', holding_registers', resp) →
      resp.getD 8 0 = (count + 7) / 8 ∧
      beToNat (resp.getD 4 0) (resp.getD 5 0) = 3 + (count + 7) / 8) ∧
    (∀ (coils holding_registers : ℕ → ℤ) (request : List ℕ) (pr : ParsedRequest)
      (address count : ℕ) (coils' holding_registers' : ℕ → ℤ) (resp : List ℕ),
      parseRequest request = some pr → pr.function_code = 3 →
      parse4 pr.data = some (address, count) →
      handle_request coils holding_registers request = some (coils', holding_registers', resp) →
      resp.getD 8 0 = count * 2 ∧
      beToNat (resp.getD 4 0) (resp.getD 5 0) = 3 + count * 2) := by
  constructor
  · intro coils holding_registers request pr address count coils' holding_registers' resp
      hparse h1 hp4 hreq
    simp only [handle_request, hparse, if_pos h1, hp4] at hreq
    by_cases hg1 : (count + 7) / 8 ≤ 255
    swap
    · rw [if_neg hg1] at hreq; exact Option.noConfusion hreq
    by_cases hg2 : ∀ i < count, address + i < 65536
    swap
    · rw [if_pos hg1, if_neg hg2] at hreq; exact Option.noConfusion hreq
    rw [if_pos hg1, if_pos hg2] at hreq
    simp only [Option.some.injEq, Prod.mk.injEq] at hreq
    obtain ⟨-, -, hresp⟩ := hreq
    rw [← hresp]
    exact ⟨frame_getD8 .., by
      rw [frame6_getD4, frame6_getD5, beToNat_u16be _ (by omega)]⟩
  · intro coils holding_registers request pr address count coils' holding_registers' resp
      hparse h3 hp4 hreq
    have h1 : pr.function_code ≠ 1 := by rw [h3]; decide
    simp only [handle_request, hparse, if_neg h1, if_pos h3, hp4] at hreq
    by_cases hg1 : ∀ i < count, address + i < 65536 ∧
        0 ≤ holding_registers (address + i) ∧ holding_registers (address + i) ≤ 65535
    swap
    · rw [if_neg hg1] at hreq; exact Option.noConfusion hreq
    by_cases hg2 : count * 2 ≤ 255
    swap
    · rw [if_pos hg1, if_neg hg2] at hreq; exact Option.noConfusion hreq
    rw [if_pos hg1, if_pos hg2] at hreq
    simp only [Option.some.injEq, Prod.mk.injEq] at hreq
    obtain ⟨-, -, hresp⟩ := hreq
    rw [← hresp]
    exact ⟨frame_getD8 .., by
      rw [frame6_getD4, frame6_getD5, beToNat_u16be _ (by omega)]⟩

/-- Witness for C3: a six-coil read answered by the fresh server has byte
count 1 and length field 4; a three-register read has byte count 6 and
length field 9. -/
theorem claim_C3_witness :
    (handle_request init_coils init_registers [0, 1, 0, 0, 0, 6, 1, 1, 0, 200, 0, 6] =
      some (init_coils, init_registers, [0, 1, 0, 0, 0, 4, 1, 1, 1, 0]) ∧
      ([0, 1, 0, 0, 0, 4, 1, 1, 1, 0] : List ℕ).getD 8 0 = (6 + 7) / 8 ∧
      beToNat (([0, 1, 0, 0, 0, 4, 1, 1, 1, 0] : List ℕ).getD 4 0)
        (([0, 1, 0, 0, 0, 4, 1, 1, 1, 0] : List ℕ).getD 5 0) = 3 + (6 + 7) / 8) ∧
    (handle_request init_coils init_registers [0, 1, 0, 0, 0, 6, 1, 3, 0, 230, 0, 3] =
      some (init_coils, init_registers, [0, 1, 0, 0, 0, 9, 1, 3, 6, 3, 132, 0, 0, 3, 132]) ∧
      ([0, 1, 0, 0, 0, 9, 1, 3, 6, 3, 132, 0, 0, 3, 132] : List ℕ).getD 8 0 = 3 * 2 ∧
      beToNat (([0, 1, 0, 0, 0, 9, 1, 3, 6, 3, 132, 0, 0, 3, 132] : List ℕ).getD 4 0)
        (([0, 1, 0, 0, 0, 9, 1, 3, 6, 3, 132, 0, 0, 3, 132] : List ℕ).getD 5 0) = 3 + 3 * 2) :=
  ⟨⟨rfl, claim_C3.1 init_coils init_registers [0, 1, 0, 0, 0, 6, 1, 1, 0, 200, 0, 6]
      ⟨1, 0, 6, 1, 1, [0, 200, 0, 6]⟩ 200 6
      init_coils init_registers [0, 1, 0, 0, 0, 4, 1, 1, 1, 0] rfl rfl rfl rfl⟩,
   ⟨rfl, claim_C3.2 init_coils init_registers [0, 1, 0, 0, 0, 6, 1, 3, 0, 230, 0, 3]
      ⟨1, 0, 6, 1, 3, [0, 230, 0, 3]⟩ 230 3
      init_coils init_registers [0, 1, 0, 0, 0, 9, 1, 3, 6, 3, 132, 0, 0, 3, 132]
      rfl rfl rfl rfl⟩⟩

/-- C4.  Writing a register and immediately reading the same address returns
exactly the written value; writing a coil (0xFF00 encodes on, anything else
off) and immediately reading the same address returns exactly the written
on/off state. -/
theorem claim_C4 :
    (∀ (coils holding_registers : ℕ → ℤ) (t1 u1 t2 u2 a v : ℕ),
      t1 ≤ 65535 → u1 ≤ 255 → t2 ≤ 65535 → u2 ≤ 255 → a ≤ 65535 → v ≤ 65535 →
      ∃ wframe rframe rresp,
        send_request t1 u1 6 a v = some wframe ∧
        handle_request coils holding_registers wframe =
          some (coils, Function.update holding_registers a (v : ℤ), wframe) ∧
        send_request t2 u2 3 a 1 = some rframe ∧
        handle_request coils (Function.update holding_registers a (v : ℤ)) rframe =
          some (coils, Function.update holding_registers a (v : ℤ), rresp) ∧
        receive_response rresp = some ⟨t2, 0, 5, u2, 3, 2, .words [v]⟩) ∧
    (∀ (coils holding_registers : ℕ → ℤ) (t1 u1 t2 u2 a b : ℕ),
      t1 ≤ 65535 → u1 ≤ 255 → t2 ≤ 65535 → u2 ≤ 255 → a ≤ 65535 →
      ∃ wframe rframe rresp,
        send_request t1 u1 5 a b = some wframe ∧
        handle_request coils holding_registers wframe =
          some (Function.update coils a (if b = 1 then (1 : ℤ) else 0),
            holding_registers, wframe) ∧
        send_request t2 u2 1 a 1 = some rframe ∧
        handle_request (Function.update coils a (if b = 1 then (1 : ℤ) else 0))
            holding_registers rframe =
          some (Function.update coils a (if b = 1 then (1 : ℤ) else 0),
            holding_registers, rresp) ∧
        receive_response rresp =
          some ⟨t2, 0, 4, u2, 1, 1, .coil_bytes [if b = 1 then 1 else 0]⟩) := by
  constructor
  · intro coils holding_registers t1 u1 t2 u2 a v ht1 hu1 ht2 hu2 ha hv
    refine ⟨_, _, _, send_request_eq t1 u1 6 a v (by tauto) ht1 hu1 ha hv,
      handle_write_register coils holding_registers t1 u1 a v ht1 ha hv,
      send_request_eq t2 u2 3 a 1 (by tauto) ht2 hu2 ha (by omega),
      handle_read_registers coils _ t2 u2 a 1 ht2 ha (by omega) (by omega) (by omega)
        (fun i hi => by
          have hi0 : i = 0 := by omega
          subst hi0
          rw [show a + 0 = a from rfl, Function.update_same]
          constructor
          · exact_mod_cast Nat.zero_le v
          · exact_mod_cast hv), ?_⟩
    have hdata : ((List.range 1).flatMap
        (fun i => u16be ((Function.update holding_registers a (v : ℤ)) (a + i)).toNat)).length =
        1 * 2 := by
      rw [length_flatMap_u16be, List.length_range]
    have h := receive_read_registers t2 u2 1 _ ht2 (by omega) hdata
    rw [show (3 : ℕ) + 1 * 2 = 5 from rfl] at h
    rw [h]
    have hw : wordsOf ((List.range 1).flatMap
        (fun i => u16be ((Function.update holding_registers a (v : ℤ)) (a + i)).toNat)) = [v] := by
      rw [wordsOf_flatMap _ _ (fun x hx => by
        simp only [List.mem_range] at hx
        have hx0 : x = 0 := by omega
        subst hx0
        rw [show a + 0 = a from rfl, Function.update_same, Int.toNat_natCast]
        exact hv)]
      rw [show List.range 1 = [0] from rfl, List.map_cons, List.map_nil,
        show a + 0 = a from rfl, Function.update_same, Int.toNat_natCast]
    rw [hw]
  · intro coils holding_registers t1 u1 t2 u2 a b ht1 hu1 ht2 hu2 ha
    have hcoil : (if (if b = 1 then 0xFF00 else 0) = 0xFF00 then (1 : ℤ) else 0) =
        (if b = 1 then (1 : ℤ) else 0) := by
      by_cases hb : b = 1 <;> simp [hb]
    refine ⟨_, _, _, send_request_coil_eq t1 u1 a b ht1 hu1 ha, ?_,
      send_request_eq t2 u2 1 a 1 (by tauto) ht2 hu2 ha (by omega),
      handle_read_coils (Function.update coils a (if b = 1 then (1 : ℤ) else 0))
        holding_registers t2 u2 a 1 ht2 ha (by omega) (by omega) (by omega), ?_⟩
    · have h := handle_write_coil coils holding_registers t1 u1 a
        (if b = 1 then 0xFF00 else 0) ht1 ha (by by_cases hb : b = 1 <;> simp [hb])
      rw [hcoil] at h
      exact h
    · have hbits : (List.range 1).map
          (fun i => if (Function.update coils a (if b = 1 then (1 : ℤ) else 0)) (a + i) = 1
            then 1 else 0) = [if b = 1 then 1 else 0] := by
        rw [show List.range 1 = [0] from rfl, List.map_cons, List.map_nil,
          show a + 0 = a from rfl, Function.update_same]
        by_cases hb : b = 1 <;> simp [hb]
      rw [show ((1 : ℕ) + 7) / 8 = 1 from rfl, hbits, packCoilData_single]
      have h := receive_read_coils t2 u2 1 [if b = 1 then 1 else 0] ht2 (by omega) rfl
      rw [show (3 : ℕ) + 1 = 4 from rfl] at h
      exact h

/-- Witness for C4: write 4711 to register 100, read it back; set coil 77,
read it back. -/
theorem claim_C4_witness :
    (∃ wframe rframe rresp,
      send_request 1 1 6 100 4711 = some wframe ∧
      handle_request init_coils init_registers wframe =
        some (init_coils, Function.update init_registers 100 (4711 : ℤ), wframe) ∧
      send_request 2 1 3 100 1 = some rframe ∧
      handle_request init_coils (Function.update init_registers 100 (4711 : ℤ)) rframe =
        some (init_coils, Function.update init_registers 100 (4711 : ℤ), rresp) ∧
      receive_response rresp = some ⟨2, 0, 5, 1, 3, 2, .words [4711]⟩) ∧
    (∃ wframe rframe rresp,
      send_request 3 1 5 77 1 = some wframe ∧
      handle_request init_coils init_registers wframe =
        some (Function.update init_coils 77 (if 1 = 1 then (1 : ℤ) else 0),
          init_registers, wframe) ∧
      send_request 4 1 1 77 1 = some rframe ∧
      handle_request (Function.update init_coils 77 (if 1 = 1 then (1 : ℤ) else 0))
          init_registers rframe =
        some (Function.update init_coils 77 (if 1 = 1 then (1 : ℤ) else 0),
          init_registers, rresp) ∧
      receive_response rresp = some ⟨4, 0, 4, 1, 1, 1, .coil_bytes [if 1 = 1 then 1 else 0]⟩) :=
  ⟨claim_C4.1 init_coils init_registers 1 1 2 1 100 4711 (by decide) (by decide) (by decide)
      (by decide) (by decide) (by decide),
   claim_C4.2 init_coils init_registers 3 1 4 1 77 1 (by decide) (by decide) (by decide)
      (by decide) (by decide)⟩

/-- C5.  Codec round trip.  The server's parser recovers from every
client-built frame exactly the transaction id, protocol id 0, unit id,
function code, address and count-or-value the client encoded (write-single-
coil value 1 encodes as 0xFF00, anything else as 0x0000); and for each
supported function code the client's decoder recovers from the server-built
response exactly the values the server packed. -/
theorem claim_C5 :
    (∀ t u f a q, (f = 1 ∨ f = 3 ∨ f = 6) →
      t ≤ 65535 → u ≤ 255 → a ≤ 65535 → q ≤ 65535 →
      ∃ frame, send_request t u f a q = some frame ∧
        parseRequest frame = some ⟨t, 0, 6, u, f, u16be a ++ u16be q⟩ ∧
        parse4 (u16be a ++ u16be q) = some (a, q)) ∧
    (∀ t u a q, t ≤ 65535 → u ≤ 255 → a ≤ 65535 →
      ∃ frame, send_request t u 5 a q = some frame ∧
        parseRequest frame =
          some ⟨t, 0, 6, u, 5, u16be a ++ u16be (if q = 1 then 0xFF00 else 0)⟩ ∧
        parse4 (u16be a ++ u16be (if q = 1 then 0xFF00 else 0)) =
          some (a, if q = 1 then 0xFF00 else 0)) ∧
    (∀ (coils holding_registers : ℕ → ℤ) (t u a q : ℕ),
      t ≤ 65535 → u ≤ 255 → a ≤ 65535 → q ≤ 65535 → a + q ≤ 65536 → q * 2 ≤ 255 →
      (∀ i < q, 0 ≤ holding_registers (a + i) ∧ holding_registers (a + i) ≤ 65535) →
      ∃ frame resp, send_request t u 3 a q = some frame ∧
        handle_request coils holding_registers frame = some (coils, holding_registers, resp) ∧
        receive_response resp = some ⟨t, 0, 3 + q * 2, u, 3, q * 2,
          .words ((List.range q).map (fun i => (holding_registers (a + i)).toNat))⟩) ∧
    (∀ (coils holding_registers : ℕ → ℤ) (t u a q : ℕ),
      t ≤ 65535 → u ≤ 255 → a ≤ 65535 → q ≤ 65535 → a + q ≤ 65536 → (q + 7) / 8 ≤ 255 →
      ∃ frame resp, send_request t u 1 a q = some frame ∧
        handle_request coils holding_registers frame = some (coils, holding_registers, resp) ∧
        receive_response resp = some ⟨t, 0, 3 + (q + 7) / 8, u, 1, (q + 7) / 8,
          .coil_bytes (packCoilData ((List.range q).map
            (fun i => if coils (a + i) = 1 then 1 else 0)) q)⟩) ∧
    (∀ (coils holding_registers : ℕ → ℤ) (t u a v : ℕ),
      t ≤ 65535 → u ≤ 255 → a ≤ 65535 → v ≤ 65535 →
      ∃ frame resp, send_request t u 6 a v = some frame ∧
        handle_request coils holding_registers frame =
          some (coils, Function.update holding_registers a (v : ℤ), resp) ∧
        receive_response resp = some ⟨t, 0, 6, u, 6, 4, .write_echo a v⟩) ∧
    (∀ (coils holding_registers : ℕ → ℤ) (t u a q : ℕ),
      t ≤ 65535 → u ≤ 255 → a ≤ 65535 →
      ∃ frame resp, send_request t u 5 a q = some frame ∧
        handle_request coils holding_registers frame =
          some (Function.update coils a
            (if (if q = 1 then 0xFF00 else 0) = 0xFF00 then (1 : ℤ) else 0),
            holding_registers, resp) ∧
        receive_response resp =
          some ⟨t, 0, 6, u, 5, 4, .write_echo a (if q = 1 then 0xFF00 else 0)⟩) := by
  have hbitval : ∀ q : ℕ, (if q = 1 then 0xFF00 else 0) ≤ 65535 := by
    intro q
    by_cases hq : q = 1 <;> simp [hq]
  refine ⟨?_, ?_, ?_, ?_, ?_, ?_⟩
  · intro t u f a q hf ht hu ha hq
    exact ⟨_, send_request_eq t u f a q (by tauto) ht hu ha hq,
      parseRequest_client_frame t u f a q ht, parse4_client a q ha hq⟩
  · intro t u a q ht hu ha
    exact ⟨_, send_request_coil_eq t u a q ht hu ha,
      parseRequest_client_frame t u 5 a _ ht, parse4_client a _ ha (hbitval q)⟩
  · intro coils holding_registers t u a q ht hu ha hq haq hbc hvals
    refine ⟨_, _, send_request_eq t u 3 a q (by tauto) ht hu ha hq,
      handle_read_registers coils holding_registers t u a q ht ha hq haq hbc hvals, ?_⟩
    have hdata : ((List.range q).flatMap
        (fun i => u16be ((holding_registers (a + i)).toNat))).length = q * 2 := by
      rw [length_flatMap_u16be, List.length_range]
    rw [receive_read_registers t u q _ ht hbc hdata,
      wordsOf_flatMap _ _ (fun x hx => by
        rw [Int.toNat_le]
        exact_mod_cast (hvals x (List.mem_range.mp hx)).2)]
  · intro coils holding_registers t u a q ht hu ha hq haq hbc
    refine ⟨_, _, send_request_eq t u 1 a q (by tauto) ht hu ha hq,
      handle_read_coils coils holding_registers t u a q ht ha hq haq hbc, ?_⟩
    exact receive_read_coils t u ((q + 7) / 8) _ ht hbc (length_packCoilData _ q)
  · intro coils holding_registers t u a v ht hu ha hv
    exact ⟨_, _, send_request_eq t u 6 a v (by tauto) ht hu ha hv,
      handle_write_register coils holding_registers t u a v ht ha hv,
      receive_write6 t u a v ht ha hv⟩
  · intro coils holding_registers t u a q ht hu ha
    exact ⟨_, _, send_request_coil_eq t u a q ht hu ha,
      handle_write_coil coils holding_registers t u a _ ht ha (hbitval q),
      receive_write5 t u a _ ht ha (hbitval q)⟩

/-- Witness for C5: the full read-holding-registers round trip at the fresh
server, transaction 7, unit 1, three registers from address 230. -/
theorem claim_C5_witness :
    ∃ frame resp, send_request 7 1 3 230 3 = some frame ∧
      handle_request init_coils init_registers frame =
        some (init_coils, init_registers, resp) ∧
      receive_response resp = some ⟨7, 0, 3 + 3 * 2, 1, 3, 3 * 2,
        .words ((List.range 3).map (fun i => (init_registers (230 + i)).toNat))⟩ :=
  claim_C5.2.2.1 init_coils init_registers 7 1 230 3 (by decide) (by decide) (by decide)
    (by decide) (by decide) (by decide) (by decide)

/-- C10.  A read-coils or read-holding-registers request whose address plus
count exceeds 65536 makes the handler fail (Python list indexing raises
`IndexError`) before any response is produced, so the client receives no
reply at all. -/
theorem claim_C10 (coils holding_registers : ℕ → ℤ) (request : List ℕ) (pr : ParsedRequest)
    (address count : ℕ) (hparse : parseRequest request = some pr)
    (hfc : pr.function_code = 1 ∨ pr.function_code = 3)
    (hdata : parse4 pr.data = some (address, count))
    (haddr : address ≤ 65535) (hover : 65536 < address + count) :
    handle_request coils holding_registers request = none := by
  have hbad : ¬ ∀ i < count, address + i < 65536 := by
    intro hall
    have hc : 1 ≤ count := by omega
    have := hall (count - 1) (by omega)
    omega
  rcases hfc with h1 | h3
  · simp only [handle_request, hparse, if_pos h1, hdata]
    by_cases hg1 : (count + 7) / 8 ≤ 255
    · rw [if_pos hg1, if_neg hbad]
    · rw [if_neg hg1]
  · have h1 : pr.function_code ≠ 1 := by rw [h3]; decide
    simp only [handle_request, hparse, if_neg h1, if_pos h3, hdata]
    rw [if_neg]
    intro hall
    exact hbad (fun i hi => (hall i hi).1)

/-- Witness for C10: reading two coils starting at address 65535 gets no
response from the fresh server. -/
theorem claim_C10_witness :
    parseRequest [0, 9, 0, 0, 0, 6, 1, 1, 255, 255, 0, 2] =
      some ⟨9, 0, 6, 1, 1, [255, 255, 0, 2]⟩ ∧
    (65535 : ℕ) ≤ 65535 ∧ (65536 : ℕ) < 65535 + 2 ∧
    handle_request init_coils init_registers [0, 9, 0, 0, 0, 6, 1, 1, 255, 255, 0, 2] = none :=
  ⟨rfl, by decide, by decide,
    claim_C10 init_coils init_registers _ ⟨9, 0, 6, 1, 1, [255, 255, 0, 2]⟩ 65535 2 rfl
      (Or.inl rfl) rfl (by decide) (by decide)⟩

/-! ## Projection lemmas for the tick pipeline -/

theorem auto_step_powder_inlet (s : ProcState) :
    (auto_step s).powder_inlet = s.powder_inlet := by
  simp only [auto_step, auto_control]
  split <;> rfl

theorem auto_step_powder_inlet_prop (s : ProcState) :
    (auto_step s).powder_inlet_prop = s.powder_inlet_prop := by
  simp only [auto_step, auto_control]
  split <;> rfl

theorem auto_step_liquid_inlet (s : ProcState) :
    (auto_step s).liquid_inlet = s.liquid_inlet := by
  simp only [auto_step, auto_control]
  split <;> rfl

theorem auto_step_liquid_inlet_prop (s : ProcState) :
    (auto_step s).liquid_inlet_prop = s.liquid_inlet_prop := by
  simp only [auto_step, auto_control]
  split <;> rfl

theorem auto_step_outlet_valve_position (s : ProcState) :
    (auto_step s).outlet_valve_position = s.outlet_valve_position := by
  simp only [auto_step, auto_control]
  split <;> rfl

theorem auto_step_process_error (s : ProcState) :
    (auto_step s).process_error = s.process_error := by
  simp only [auto_step, auto_control]
  split <;> rfl

theorem valves_outlet_valve_position (s : ProcState) :
    (update_inlet_valve_positions s).outlet_valve_position = s.outlet_valve_position := by
  rfl

theorem valves_coils (s : ProcState) :
    (update_inlet_valve_positions s).coils = s.coils := by
  rfl

theorem valves_process_error (s : ProcState) :
    (update_inlet_valve_positions s).process_error = s.process_error := by
  rfl

theorem flows_powder_inlet (r : Rand) (s : ProcState) :
    (update_inlet_flows r s).powder_inlet = s.powder_inlet := by
  rfl

theorem flows_powder_inlet_prop (r : Rand) (s : ProcState) :
    (update_inlet_flows r s).powder_inlet_prop = s.powder_inlet_prop := by
  rfl

theorem flows_liquid_inlet (r : Rand) (s : ProcState) :
    (update_inlet_flows r s).liquid_inlet = s.liquid_inlet := by
  rfl

theorem flows_liquid_inlet_prop (r : Rand) (s : ProcState) :
    (update_inlet_flows r s).liquid_inlet_prop = s.liquid_inlet_prop := by
  rfl

theorem flows_outlet_valve_position (r : Rand) (s : ProcState) :
    (update_inlet_flows r s).outlet_valve_position = s.outlet_valve_position := by
  rfl

theorem flows_coils (r : Rand) (s : ProcState) :
    (update_inlet_flows r s).coils = s.coils := by
  rfl

theorem flows_process_error (r : Rand) (s : ProcState) :
    (update_inlet_flows r s).process_error = s.process_error := by
  rfl

theorem temp_powder_inlet (s : ProcState) :
    (update_temperature_from_heater s).powder_inlet = s.powder_inlet := by
  simp only [update_temperature_from_heater]
  split <;> rfl

theorem temp_powder_inlet_prop (s : ProcState) :
    (update_temperature_from_heater s).powder_inlet_prop = s.powder_inlet_prop := by
  simp only [update_temperature_from_heater]
  split <;> rfl

theorem temp_liquid_inlet (s : ProcState) :
    (update_temperature_from_heater s).liquid_inlet = s.liquid_inlet := by
  simp only [update_temperature_from_heater]
  split <;> rfl

theorem temp_liquid_inlet_prop (s : ProcState) :
    (update_temperature_from_heater s).liquid_inlet_prop = s.liquid_inlet_prop := by
  simp only [update_temperature_from_heater]
  split <;> rfl

theorem temp_outlet_valve_position (s : ProcState) :
    (update_temperature_from_heater s).outlet_valve_position = s.outlet_valve_position := by
  simp only [update_temperature_from_heater]
  split <;> rfl

theorem temp_coils (s : ProcState) :
    (update_temperature_from_heater s).coils = s.coils := by
  simp only [update_temperature_from_heater]
  split <;> rfl

theorem temp_process_error (s : ProcState) :
    (update_temperature_from_heater s).process_error = s.process_error := by
  simp only [update_temperature_from_heater]
  split <;> rfl

theorem react_powder_inlet (r : Rand) (s : ProcState) :
    (react r s).powder_inlet = s.powder_inlet := by
  simp only [react]
  split <;> rfl

theorem react_powder_inlet_prop (r : Rand) (s : ProcState) :
    (react r s).powder_inlet_prop = s.powder_inlet_prop := by
  simp only [react]
  split <;> rfl

theorem react_liquid_inlet (r : Rand) (s : ProcState) :
    (react r s).liquid_inlet = s.liquid_inlet := by
  simp only [react]
  split <;> rfl

theorem react_liquid_inlet_prop (r : Rand) (s : ProcState) :
    (react r s).liquid_inlet_prop = s.liquid_inlet_prop := by
  simp only [react]
  split <;> rfl

theorem react_outlet_valve_position (r : Rand) (s : ProcState) :
    (react r s).outlet_valve_position = s.outlet_valve_position := by
  simp only [react]
  split <;> rfl

theorem react_coils (r : Rand) (s : ProcState) :
    (react r s).coils = s.coils := by
  simp only [react]
  split <;> rfl

theorem react_process_error (r : Rand) (s : ProcState) :
    (react r s).process_error = s.process_error := by
  simp only [react]
  split <;> rfl

theorem cfc_powder_inlet (s : ProcState) :
    (chem_fault_check s).powder_inlet = s.powder_inlet := by
  rfl

theorem cfc_powder_inlet_prop (s : ProcState) :
    (chem_fault_check s).powder_inlet_prop = s.powder_inlet_prop := by
  rfl

theorem cfc_liquid_inlet (s : ProcState) :
    (chem_fault_check s).liquid_inlet = s.liquid_inlet := by
  rfl

theorem cfc_liquid_inlet_prop (s : ProcState) :
    (chem_fault_check s).liquid_inlet_prop = s.liquid_inlet_prop := by
  rfl

theorem cfc_outlet_valve_position (s : ProcState) :
    (chem_fault_check s).outlet_valve_position = s.outlet_valve_position := by
  rfl

theorem cfc_coils (s : ProcState) :
    (chem_fault_check s).coils = s.coils := by
  rfl

theorem outlet_powder_inlet (s : ProcState) :
    (update_outlet_flow s).powder_inlet = s.powder_inlet := by
  rfl

theorem outlet_powder_inlet_prop (s : ProcState) :
    (update_outlet_flow s).powder_inlet_prop = s.powder_inlet_prop := by
  rfl

theorem outlet_liquid_inlet (s : ProcState) :
    (update_outlet_flow s).liquid_inlet = s.liquid_inlet := by
  rfl

theorem outlet_liquid_inlet_prop (s : ProcState) :
    (update_outlet_flow s).liquid_inlet_prop = s.liquid_inlet_prop := by
  rfl

theorem outlet_coils (s : ProcState) :
    (update_outlet_flow s).coils = s.coils := by
  rfl

theorem outlet_process_error (s : ProcState) :
    (update_outlet_flow s).process_error = s.process_error := by
  rfl

theorem utp_powder_inlet (s : ProcState) :
    (update_tank_pressure s).powder_inlet = s.powder_inlet := by
  rfl

theorem utp_powder_inlet_prop (s : ProcState) :
    (update_tank_pressure s).powder_inlet_prop = s.powder_inlet_prop := by
  rfl

theorem utp_liquid_inlet (s : ProcState) :
    (update_tank_pressure s).liquid_inlet = s.liquid_inlet := by
  rfl

theorem utp_liquid_inlet_prop (s : ProcState) :
    (update_tank_pressure s).liquid_inlet_prop = s.liquid_inlet_prop := by
  rfl

theorem utp_outlet_valve_position (s : ProcState) :
    (update_tank_pressure s).outlet_valve_position = s.outlet_valve_position := by
  rfl

theorem utp_coils (s : ProcState) :
    (update_tank_pressure s).coils = s.coils := by
  rfl

theorem updreg_powder_inlet (s : ProcState) :
    (update_registers s).powder_inlet = s.powder_inlet := by
  rfl

theorem updreg_powder_inlet_prop (s : ProcState) :
    (update_registers s).powder_inlet_prop = s.powder_inlet_prop := by
  rfl

theorem updreg_liquid_inlet (s : ProcState) :
    (update_registers s).liquid_inlet = s.liquid_inlet := by
  rfl

theorem updreg_liquid_inlet_prop (s : ProcState) :
    (update_registers s).liquid_inlet_prop = s.liquid_inlet_prop := by
  rfl

theorem updreg_outlet_valve_position (s : ProcState) :
    (update_registers s).outlet_valve_position = s.outlet_valve_position := by
  rfl

theorem updreg_coils (s : ProcState) :
    (update_registers s).coils = s.coils := by
  rfl

theorem updreg_process_error (s : ProcState) :
    (update_registers s).process_error = s.process_error := by
  rfl

theorem sev_powder_inlet (s : ProcState) :
    (set_error_values s).powder_inlet = s.powder_inlet := by
  rfl

theorem sev_powder_inlet_prop (s : ProcState) :
    (set_error_values s).powder_inlet_prop = s.powder_inlet_prop := by
  rfl

theorem sev_liquid_inlet (s : ProcState) :
    (set_error_values s).liquid_inlet = s.liquid_inlet := by
  rfl

theorem sev_liquid_inlet_prop (s : ProcState) :
    (set_error_values s).liquid_inlet_prop = s.liquid_inlet_prop := by
  rfl

theorem sev_outlet_valve_position (s : ProcState) :
    (set_error_values s).outlet_valve_position = s.outlet_valve_position := by
  rfl

theorem sev_process_error (s : ProcState) :
    (set_error_values s).process_error = s.process_error := by
  rfl

theorem valves_powder_inlet (s : ProcState) :
    (update_inlet_valve_positions s).powder_inlet =
      on_off_valve_step (s.coils POWDER_INLET_ADDR) s.powder_inlet := rfl

theorem valves_powder_inlet_prop (s : ProcState) :
    (update_inlet_valve_positions s).powder_inlet_prop =
      prop_valve_step s.powder_inlet_prop
        ((s.holding_registers PROPORTIONAL_POWDER_FEED_ADDR : ℤ) : ℚ) := rfl

theorem valves_liquid_inlet (s : ProcState) :
    (update_inlet_valve_positions s).liquid_inlet =
      on_off_valve_step (s.coils LIQUID_INLET_ADDR) s.liquid_inlet := rfl

theorem valves_liquid_inlet_prop (s : ProcState) :
    (update_inlet_valve_positions s).liquid_inlet_prop =
      prop_valve_step s.liquid_inlet_prop
        ((s.holding_registers PROPORTIONAL_LIQUID_FEED_ADDR : ℤ) : ℚ) := rfl

theorem outlet_outlet_valve_position (s : ProcState) :
    (update_outlet_flow s).outlet_valve_position =
      on_off_valve_step (s.coils OUTLET_VALVE_ADDR) s.outlet_valve_position := rfl

theorem valves_holding_registers (s : ProcState) :
    (update_inlet_valve_positions s).holding_registers = s.holding_registers := rfl

theorem flows_holding_registers (r : Rand) (s : ProcState) :
    (update_inlet_flows r s).holding_registers = s.holding_registers := rfl

theorem temp_holding_registers (s : ProcState) :
    (update_temperature_from_heater s).holding_registers = s.holding_registers := by
  simp only [update_temperature_from_heater]
  split <;> rfl

theorem react_holding_registers (r : Rand) (s : ProcState) :
    (react r s).holding_registers = s.holding_registers := by
  simp only [react]
  split <;> rfl

theorem cfc_process_error (s : ProcState) :
    (chem_fault_check s).process_error =
      (s.process_error || decide (overfill_fault s) || decide (outlet_fault s) ||
        decide (ignition_fault s)) := rfl

theorem utp_process_error (s : ProcState) :
    (update_tank_pressure s).process_error =
      ((pressure_step s).process_error || decide (pressure_fault (pressure_step s))) := rfl

theorem pressure_step_process_error (s : ProcState) :
    (pressure_step s).process_error = s.process_error := rfl

theorem simulate_tick_process_error (r : Rand) (s : ProcState) :
    (simulate_tick r s).process_error = (simulate_updates r s).process_error := by
  simp only [simulate_tick]
  split <;> rfl

/-- The error flag after the update pass: the old flag or-ed with the four
fault conditions evaluated at the states where the source checks them. -/
theorem simulate_updates_process_error (r : Rand) (s : ProcState) :
    (simulate_updates r s).process_error =
      (s.process_error
        || decide (overfill_fault (react r (update_temperature_from_heater
            (update_inlet_flows r (update_inlet_valve_positions (auto_step s))))))
        || decide (outlet_fault (react r (update_temperature_from_heater
            (update_inlet_flows r (update_inlet_valve_positions (auto_step s))))))
        || decide (ignition_fault (react r (update_temperature_from_heater
            (update_inlet_flows r (update_inlet_valve_positions (auto_step s))))))
        || decide (pressure_fault (pressure_step (update_outlet_flow (process_chemicals r
            (update_temperature_from_heater (update_inlet_flows r
              (update_inlet_valve_positions (auto_step s))))))))) := by
  unfold simulate_updates
  rw [updreg_process_error, utp_process_error, pressure_step_process_error,
    outlet_process_error]
  unfold process_chemicals
  rw [cfc_process_error, react_process_error, temp_process_error, flows_process_error,
    valves_process_error, auto_step_process_error]

theorem run_process_error_sticky (rs : List Rand) :
    ∀ s : ProcState, s.process_error = true → (run rs s).process_error = true := by
  induction rs with
  | nil => exact fun s h => h
  | cons r rs ih =>
    intro s h
    rw [run]
    apply ih
    rw [simulate_tick_process_error, simulate_updates_process_error, h]
    rfl

/-- C7.  A tick sets the process-error flag exactly when the old flag was set
or one of the four fault conditions holds at the point in the tick where the
source checks it (overfill, outlet-on-near-empty and powder-ignition after
the reaction step; over-pressure after the pressure step); and once set, no
sequence of further ticks ever clears the flag. -/
theorem claim_C7 (r : Rand) (s : ProcState) :
    ((simulate_tick r s).process_error = true ↔
      (s.process_error = true ∨
        overfill_fault (react r (update_temperature_from_heater
          (update_inlet_flows r (update_inlet_valve_positions (auto_step s))))) ∨
        outlet_fault (react r (update_temperature_from_heater
          (update_inlet_flows r (update_inlet_valve_positions (auto_step s))))) ∨
        ignition_fault (react r (update_temperature_from_heater
          (update_inlet_flows r (update_inlet_valve_positions (auto_step s))))) ∨
        pressure_fault (pressure_step (update_outlet_flow (process_chemicals r
          (update_temperature_from_heater (update_inlet_flows r
            (update_inlet_valve_positions (auto_step s))))))))) ∧
    (s.process_error = true → ∀ rs : List Rand, (run rs s).process_error = true) := by
  constructor
  · rw [simulate_tick_process_error, simulate_updates_process_error]
    simp only [Bool.or_eq_true, decide_eq_true_eq]
    tauto
  · exact fun h rs => run_process_error_sticky rs s h

/-- Witness for C7: from a state with the flag already set, it stays set. -/
theorem claim_C7_witness :
    ({ initState with process_error := true } : ProcState).process_error = true ∧
    (run [⟨500, 800, false⟩] { initState with process_error := true }).process_error = true :=
  ⟨rfl, (claim_C7 ⟨500, 800, false⟩ { initState with process_error := true }).2 rfl
    [⟨500, 800, false⟩]⟩

/-- C8.  A tick executed while the process-error flag is set ends with every
process register 230–243 holding the sentinel 9999 and every valve/mixer coil
200–204 holding the sentinel 1, while all the simulated physical quantities
are still advanced exactly as the update pass computes them. -/
theorem claim_C8 (r : Rand) (s : ProcState) (h : s.process_error = true) :
    (∀ a, 230 ≤ a → a ≤ 243 → (simulate_tick r s).holding_registers a = 9999) ∧
    (∀ a, 200 ≤ a → a ≤ 204 → (simulate_tick r s).coils a = 1) ∧
    (simulate_tick r s).powder_inlet = (simulate_updates r s).powder_inlet ∧
    (simulate_tick r s).powder_inlet_prop = (simulate_updates r s).powder_inlet_prop ∧
    (simulate_tick r s).liquid_inlet = (simulate_updates r s).liquid_inlet ∧
    (simulate_tick r s).liquid_inlet_prop = (simulate_updates r s).liquid_inlet_prop ∧
    (simulate_tick r s).outlet_valve_position = (simulate_updates r s).outlet_valve_position ∧
    (simulate_tick r s).powder_tank_level = (simulate_updates r s).powder_tank_level ∧
    (simulate_tick r s).liquid_tank_level = (simulate_updates r s).liquid_tank_level ∧
    (simulate_tick r s).powder_mix_tank_level = (simulate_updates r s).powder_mix_tank_level ∧
    (simulate_tick r s).liquid_mix_tank_level = (simulate_updates r s).liquid_mix_tank_level ∧
    (simulate_tick r s).processed_mix_tank_level =
      (simulate_updates r s).processed_mix_tank_level ∧
    (simulate_tick r s).powder_inlet_flow = (simulate_updates r s).powder_inlet_flow ∧
    (simulate_tick r s).liquid_inlet_flow = (simulate_updates r s).liquid_inlet_flow ∧
    (simulate_tick r s).product_outlet_flow = (simulate_updates r s).product_outlet_flow ∧
    (simulate_tick r s).temperature_upper = (simulate_updates r s).temperature_upper ∧
    (simulate_tick r s).temperature_lower = (simulate_updates r s).temperature_lower ∧
    (simulate_tick r s).tank_pressure = (simulate_updates r s).tank_pressure := by
  have herr : (simulate_updates r s).process_error = true := by
    rw [simulate_updates_process_error, h]
    rfl
  have htick : simulate_tick r s = set_error_values (simulate_updates r s) := by
    simp only [simulate_tick]
    rw [if_pos herr]
  rw [htick]
  refine ⟨?_, ?_, rfl, rfl, rfl, rfl, rfl, rfl, rfl, rfl, rfl, rfl, rfl, rfl, rfl, rfl,
    rfl, rfl⟩
  · intro a ha1 ha2
    interval_cases a <;> rfl
  · intro a ha1 ha2
    interval_cases a <;> rfl

/-- Witness for C8: a faulted fresh state shows the sentinels after one tick. -/
theorem claim_C8_witness :
    ({ initState with process_error := true } : ProcState).process_error = true ∧
    (∀ a, 230 ≤ a → a ≤ 243 →
      (simulate_tick ⟨500, 800, false⟩
        { initState with process_error := true }).holding_registers a = 9999) ∧
    (∀ a, 200 ≤ a → a ≤ 204 →
      (simulate_tick ⟨500, 800, false⟩
        { initState with process_error := true }).coils a = 1) :=
  ⟨rfl,
   (claim_C8 ⟨500, 800, false⟩ { initState with process_error := true } rfl).1,
   (claim_C8 ⟨500, 800, false⟩ { initState with process_error := true } rfl).2.1⟩

/-! ## Quiescent runs -/

theorem init_coils_zero (a : ℕ) : init_coils a = 0 := by
  unfold init_coils
  simp only [Function.update_apply]
  split_ifs <;> rfl

theorem quiet_register_write_init : quiet_register_write init_registers = init_registers := by
  funext a
  unfold quiet_register_write
  by_cases h237 : a = 237
  · subst h237; rfl
  rw [Function.update_noteq h237]
  by_cases h243 : a = 243
  · subst h243; rfl
  rw [Function.update_noteq h243]
  by_cases h242 : a = 242
  · subst h242; rfl
  rw [Function.update_noteq h242]
  by_cases h238 : a = 238
  · subst h238; rfl
  rw [Function.update_noteq h238]
  by_cases h239 : a = 239
  · subst h239; rfl
  rw [Function.update_noteq h239]
  by_cases h234 : a = 234
  · subst h234; rfl
  rw [Function.update_noteq h234]
  by_cases h235 : a = 235
  · subst h235; rfl
  rw [Function.update_noteq h235]
  by_cases h241 : a = 241
  · subst h241; rfl
  rw [Function.update_noteq h241]
  by_cases h240 : a = 240
  · subst h240; rfl
  rw [Function.update_noteq h240]
  by_cases h232 : a = 232
  · subst h232; rfl
  rw [Function.update_noteq h232]
  by_cases h230 : a = 230
  · subst h230; rfl
  rw [Function.update_noteq h230]

theorem run_append (l1 l2 : List Rand) (s : ProcState) :
    run (l1 ++ l2) s = run l2 (run l1 s) := by
  induction l1 generalizing s with
  | nil => rfl
  | cons r l1 ih => rw [List.cons_append, run, run, ih]

theorem prop_valve_step_zero_zero : prop_valve_step 0 ((0 : ℤ) : ℚ) = 0 := by
  norm_num [prop_valve_step]

theorem run_quiet_init (rs : List Rand) :
    ∀ m, m ≤ 60 → run rs (quietState init_coils init_registers 0 0 m) =
      quietState init_coils init_registers 0 0 (min (m + rs.length) 60) := by
  induction rs with
  | nil =>
    intro m hm
    rw [run]
    congr 1
    simp only [List.length_nil]
    omega
  | cons r rs ih =>
    intro m hm
    rw [run, simulate_tick_quiet r rfl rfl rfl rfl (by decide) rfl (by decide) (by decide)
      le_rfl le_rfl hm, quiet_register_write_init,
      show (init_registers PROPORTIONAL_POWDER_FEED_ADDR : ℤ) = 0 from rfl,
      show (init_registers PROPORTIONAL_LIQUID_FEED_ADDR : ℤ) = 0 from rfl,
      prop_valve_step_zero_zero, ih (min (m + 1) 60) (by omega)]
    congr 1
    simp only [List.length_cons]
    omega

/-- C9.  With all coils false and no register writes, any number of ticks from
the fresh state is quiescent: all coils stay 0, every holding register keeps
its initial value, all valve positions stay 0, both temperatures stay at
ambient 20, pressure stays at 101, the feeder tanks stay at 900, all mix-tank
volumes stay 0 and no fault is raised. -/
theorem claim_C9 (rs : List Rand) :
    (∀ a, (run rs initState).coils a = 0) ∧
    (∀ a, (run rs initState).holding_registers a = initState.holding_registers a) ∧
    (run rs initState).powder_inlet = 0 ∧
    (run rs initState).powder_inlet_prop = 0 ∧
    (run rs initState).liquid_inlet = 0 ∧
    (run rs initState).liquid_inlet_prop = 0 ∧
    (run rs initState).outlet_valve_position = 0 ∧
    (run rs initState).temperature_upper = 20 ∧
    (run rs initState).temperature_lower = 20 ∧
    (run rs initState).tank_pressure = 101 ∧
    (run rs initState).powder_tank_level = 900 ∧
    (run rs initState).liquid_tank_level = 900 ∧
    (run rs initState).powder_mix_tank_level = 0 ∧
    (run rs initState).liquid_mix_tank_level = 0 ∧
    (run rs initState).processed_mix_tank_level = 0 ∧
    (run rs initState).process_error = false := by
  have hrun : run rs initState =
      quietState init_coils init_registers 0 0 (min (0 + rs.length) 60) :=
    run_quiet_init rs 0 (by omega)
  rw [hrun]
  exact ⟨fun a => init_coils_zero a, fun a => rfl, rfl, rfl, rfl, rfl, rfl, rfl, rfl, rfl,
    rfl, rfl, rfl, rfl, rfl, rfl⟩

/-! ## Valve movement lemmas -/

theorem on_off_valve_step_mem {c : ℤ} {p : ℚ} (h0 : 0 ≤ p) (h1 : p ≤ 100) :
    0 ≤ on_off_valve_step c p ∧ on_off_valve_step c p ≤ 100 := by
  unfold on_off_valve_step ON_OFF_VALVE_INCREMENT VALVE_MIN VALVE_MAX
  split_ifs with hc1 hc2
  · constructor
    · exact le_min (by linarith) (by linarith)
    · exact min_le_right _ _
  · constructor
    · exact le_max_right _ _
    · exact max_le (by linarith) (by linarith)
  · exact ⟨h0, h1⟩

theorem on_off_valve_step_steps {c : ℤ} {p : ℚ} (h0 : 0 ≤ p) (h1 : p ≤ 100) :
    steps_toward p (on_off_valve_step c p) (if c = 1 then 100 else 0)
      ON_OFF_VALVE_INCREMENT := by
  unfold on_off_valve_step steps_toward ON_OFF_VALVE_INCREMENT VALVE_MIN VALVE_MAX
  by_cases hc : c = 1
  · rw [if_pos hc]
    by_cases hp : p < 100
    · rw [if_pos ⟨hc, hp⟩]
      left
      refine ⟨by linarith, le_min (by linarith) (by linarith), min_le_right _ _, ?_⟩
      rcases le_or_lt (p + 20) 100 with h | h
      · rw [min_eq_left h]; linarith
      · rw [min_eq_right (by linarith)]; linarith
    · rw [if_neg (by tauto),
        if_neg (show ¬ (c = 0 ∧ p > 0) from by rintro ⟨h0', -⟩; rw [hc] at h0'; norm_num at h0')]
      left
      exact ⟨by linarith, le_refl p, by linarith, by linarith⟩
  · rw [if_neg hc, if_neg (by tauto)]
    by_cases hz : c = 0 ∧ p > 0
    · rw [if_pos hz]
      right
      refine ⟨h0, le_max_right _ _, max_le (by linarith) h0, ?_⟩
      rcases le_or_lt 0 (p - 20) with h | h
      · rw [max_eq_left h]; linarith
      · rw [max_eq_right (by linarith)]; linarith
    · rw [if_neg hz]
      right
      exact ⟨h0, h0, le_refl p, by linarith⟩

theorem prop_valve_step_mem {p t : ℚ} (h0 : 0 ≤ p) (h1 : p ≤ 100)
    (ht0 : 0 ≤ t) (ht1 : t ≤ 100) :
    0 ≤ prop_valve_step p t ∧ prop_valve_step p t ≤ 100 := by
  unfold prop_valve_step PROPORTIONAL_VALVE_INCREMENT
  split_ifs with hc1 hc2
  · exact ⟨le_min (by linarith) (by linarith), le_trans (min_le_right _ _) ht1⟩
  · exact ⟨le_trans ht0 (le_max_right _ _), max_le (by linarith) ht1⟩
  · exact ⟨h0, h1⟩

theorem prop_valve_step_steps (p t : ℚ) :
    steps_toward p (prop_valve_step p t) t PROPORTIONAL_VALVE_INCREMENT := by
  unfold prop_valve_step steps_toward PROPORTIONAL_VALVE_INCREMENT
  split_ifs with hc1 hc2
  · exact Or.inl ⟨by linarith, le_min (by linarith) (by linarith), min_le_right _ _,
      by rcases le_or_lt (p + 1) t with h | h
         · rw [min_eq_left h]; linarith
         · rw [min_eq_right (by linarith)]; linarith⟩
  · exact Or.inr ⟨by linarith, le_max_right _ _, max_le (by linarith) (by linarith),
      by rcases le_or_lt t (p - 1) with h | h
         · rw [max_eq_left h]; linarith
         · rw [max_eq_right (by linarith)]; linarith⟩
  · have hpt : p = t := le_antisymm (not_lt.mp hc2) (not_lt.mp hc1)
    exact Or.inl ⟨le_of_eq hpt, le_refl p, le_of_eq hpt, by linarith⟩

/-! ## What one tick does to each valve position -/

theorem tick_powder_inlet (r : Rand) (s : ProcState) :
    (simulate_tick r s).powder_inlet =
      on_off_valve_step ((auto_step s).coils POWDER_INLET_ADDR) s.powder_inlet := by
  have h : (simulate_tick r s).powder_inlet = (simulate_updates r s).powder_inlet := by
    simp only [simulate_tick]
    split <;> rfl
  rw [h]
  unfold simulate_updates process_chemicals
  rw [updreg_powder_inlet, utp_powder_inlet, outlet_powder_inlet, cfc_powder_inlet,
    react_powder_inlet, temp_powder_inlet, flows_powder_inlet, valves_powder_inlet,
    auto_step_powder_inlet]

theorem tick_powder_inlet_prop (r : Rand) (s : ProcState) :
    (simulate_tick r s).powder_inlet_prop =
      prop_valve_step s.powder_inlet_prop
        (((auto_step s).holding_registers PROPORTIONAL_POWDER_FEED_ADDR : ℤ) : ℚ) := by
  have h : (simulate_tick r s).powder_inlet_prop = (simulate_updates r s).powder_inlet_prop := by
    simp only [simulate_tick]
    split <;> rfl
  rw [h]
  unfold simulate_updates process_chemicals
  rw [updreg_powder_inlet_prop, utp_powder_inlet_prop, outlet_powder_inlet_prop,
    cfc_powder_inlet_prop, react_powder_inlet_prop, temp_powder_inlet_prop,
    flows_powder_inlet_prop, valves_powder_inlet_prop, auto_step_powder_inlet_prop]

theorem tick_liquid_inlet (r : Rand) (s : ProcState) :
    (simulate_tick r s).liquid_inlet =
      on_off_valve_step ((auto_step s).coils LIQUID_INLET_ADDR) s.liquid_inlet := by
  have h : (simulate_tick r s).liquid_inlet = (simulate_updates r s).liquid_inlet := by
    simp only [simulate_tick]
    split <;> rfl
  rw [h]
  unfold simulate_updates process_chemicals
  rw [updreg_liquid_inlet, utp_liquid_inlet, outlet_liquid_inlet, cfc_liquid_inlet,
    react_liquid_inlet, temp_liquid_inlet, flows_liquid_inlet, valves_liquid_inlet,
    auto_step_liquid_inlet]

theorem tick_liquid_inlet_prop (r : Rand) (s : ProcState) :
    (simulate_tick r s).liquid_inlet_prop =
      prop_valve_step s.liquid_inlet_prop
        (((auto_step s).holding_registers PROPORTIONAL_LIQUID_FEED_ADDR : ℤ) : ℚ) := by
  have h : (simulate_tick r s).liquid_inlet_prop = (simulate_updates r s).liquid_inlet_prop := by
    simp only [simulate_tick]
    split <;> rfl
  rw [h]
  unfold simulate_updates process_chemicals
  rw [updreg_liquid_inlet_prop, utp_liquid_inlet_prop, outlet_liquid_inlet_prop,
    cfc_liquid_inlet_prop, react_liquid_inlet_prop, temp_liquid_inlet_prop,
    flows_liquid_inlet_prop, valves_liquid_inlet_prop, auto_step_liquid_inlet_prop]

theorem tick_outlet_valve_position (r : Rand) (s : ProcState) :
    (simulate_tick r s).outlet_valve_position =
      on_off_valve_step ((auto_step s).coils OUTLET_VALVE_ADDR) s.outlet_valve_position := by
  have h : (simulate_tick r s).outlet_valve_position =
      (simulate_updates r s).outlet_valve_position := by
    simp only [simulate_tick]
    split <;> rfl
  rw [h]
  unfold simulate_updates process_chemicals
  rw [updreg_outlet_valve_position, utp_outlet_valve_position, outlet_outlet_valve_position,
    cfc_coils, react_coils, temp_coils, flows_coils, valves_coils,
    cfc_outlet_valve_position, react_outlet_valve_position, temp_outlet_valve_position,
    flows_outlet_valve_position, valves_outlet_valve_position, auto_step_outlet_valve_position]

/-! ## Bounds on the auto-control register writes -/

theorem auto_step_reg231_bound (s : ProcState)
    (h : 0 ≤ s.holding_registers PROPORTIONAL_POWDER_FEED_ADDR ∧
      s.holding_registers PROPORTIONAL_POWDER_FEED_ADDR ≤ 100) :
    0 ≤ (auto_step s).holding_registers PROPORTIONAL_POWDER_FEED_ADDR ∧
      (auto_step s).holding_registers PROPORTIONAL_POWDER_FEED_ADDR ≤ 100 := by
  unfold auto_step
  split
  · simp only [auto_control]
    split_ifs <;> (try simp [Function.update_apply]) <;> omega
  · exact h

theorem auto_step_reg233_bound (s : ProcState)
    (h : 0 ≤ s.holding_registers PROPORTIONAL_LIQUID_FEED_ADDR ∧
      s.holding_registers PROPORTIONAL_LIQUID_FEED_ADDR ≤ 100) :
    0 ≤ (auto_step s).holding_registers PROPORTIONAL_LIQUID_FEED_ADDR ∧
      (auto_step s).holding_registers PROPORTIONAL_LIQUID_FEED_ADDR ≤ 100 := by
  unfold auto_step
  split
  · simp only [auto_control]
    split_ifs <;> (try simp [Function.update_apply]) <;> omega
  · exact h

/-! ## The counterexample run: target register 231 written to 200 -/

theorem qrw_231 (regs : ℕ → ℤ) :
    quiet_register_write regs PROPORTIONAL_POWDER_FEED_ADDR =
      regs PROPORTIONAL_POWDER_FEED_ADDR := rfl

theorem qrw_233 (regs : ℕ → ℤ) :
    quiet_register_write regs PROPORTIONAL_LIQUID_FEED_ADDR =
      regs PROPORTIONAL_LIQUID_FEED_ADDR := rfl

theorem qrw_236 (regs : ℕ → ℤ) :
    quiet_register_write regs HEATER_ADDR = regs HEATER_ADDR := rfl

theorem qrw_iter_231 (k : ℕ) :
    (quiet_register_write^[k] (Function.update init_registers 231 (200 : ℤ)))
      PROPORTIONAL_POWDER_FEED_ADDR = 200 := by
  induction k with
  | zero => rfl
  | succ k ih => rw [Function.iterate_succ_apply', qrw_231, ih]

theorem qrw_iter_233 (k : ℕ) :
    (quiet_register_write^[k] (Function.update init_registers 231 (200 : ℤ)))
      PROPORTIONAL_LIQUID_FEED_ADDR = 0 := by
  induction k with
  | zero => rfl
  | succ k ih => rw [Function.iterate_succ_apply', qrw_233, ih]

theorem qrw_iter_236 (k : ℕ) :
    (quiet_register_write^[k] (Function.update init_registers 231 (200 : ℤ)))
      HEATER_ADDR = 0 := by
  induction k with
  | zero => rfl
  | succ k ih => rw [Function.iterate_succ_apply', qrw_236, ih]

theorem c1_run (k : ℕ) (hk : k ≤ 200) :
    run (List.replicate k ⟨500, 800, false⟩)
      (quietState init_coils (Function.update init_registers 231 (200 : ℤ)) 0 0 0) =
    quietState init_coils
      (quiet_register_write^[k] (Function.update init_registers 231 (200 : ℤ)))
      (k : ℚ) 0 (min k 60) := by
  induction k with
  | zero =>
    rw [List.replicate_zero, run]
    norm_num
  | succ k ih =>
    have hk' : k ≤ 200 := by omega
    rw [List.replicate_succ' k _, run_append, ih hk', run, run,
      simulate_tick_quiet _ rfl rfl rfl rfl (by decide) (qrw_iter_236 k)
        (by rw [qrw_iter_231]; decide) (by rw [qrw_iter_233])
        (Nat.cast_nonneg k) le_rfl (min_le_right _ _),
      show quiet_register_write
          (quiet_register_write^[k] (Function.update init_registers 231 (200 : ℤ))) =
        quiet_register_write^[k + 1] (Function.update init_registers 231 (200 : ℤ)) from
        (Function.iterate_succ_apply' _ _ _).symm,
      qrw_iter_231, qrw_iter_233]
    have hpp : prop_valve_step (k : ℚ) ((200 : ℤ) : ℚ) = ((k + 1 : ℕ) : ℚ) := by
      unfold prop_valve_step PROPORTIONAL_VALVE_INCREMENT
      rw [if_pos (by push_cast; exact_mod_cast (by omega : k < 200))]
      rw [min_eq_left (by push_cast; exact_mod_cast (by omega : k + 1 ≤ 200))]
      push_cast
      ring
    rw [hpp, show prop_valve_step 0 ((0 : ℤ) : ℚ) = 0 from prop_valve_step_zero_zero]
    congr 1
    omega

/-- Counterexample for C1 as stated.  After a single client write of 200 to
the proportional powder-feed target register (231), 101 ticks with every coil
off drive the actual position of the proportional powder feed valve to 101,
outside [0,100]. -/
theorem claim_C1_counterexample :
    handle_request initState.coils initState.holding_registers
        (u16be 7 ++ u16be 0 ++ u16be 6 ++ [1, 6] ++ u16be 231 ++ u16be 200) =
      some (initState.coils,
        Function.update initState.holding_registers 231 (200 : ℤ),
        u16be 7 ++ u16be 0 ++ u16be 6 ++ [1, 6] ++ u16be 231 ++ u16be 200) ∧
    (run (List.replicate 101 ⟨500, 800, false⟩)
      { initState with holding_registers := Function.update initState.holding_registers 231 (200 : ℤ) }).powder_inlet_prop
      = 101 ∧
    ¬ (run (List.replicate 101 ⟨500, 800, false⟩)
      { initState with holding_registers := Function.update initState.holding_registers 231 (200 : ℤ) }).powder_inlet_prop
      ≤ 100 := by
  have hrun : run (List.replicate 101 ⟨500, 800, false⟩)
      ({ initState with holding_registers := Function.update initState.holding_registers 231 (200 : ℤ) } : ProcState) =
      quietState init_coils
        (quiet_register_write^[101] (Function.update init_registers 231 (200 : ℤ)))
        ((101 : ℕ) : ℚ) 0 (min 101 60) := c1_run 101 (by omega)
  refine ⟨handle_write_register initState.coils initState.holding_registers 7 1 231 200
    (by omega) (by omega) (by omega), ?_, ?_⟩
  · rw [hrun]
    show ((101 : ℕ) : ℚ) = 101
    norm_num
  · rw [hrun]
    show ¬ ((101 : ℕ) : ℚ) ≤ 100
    norm_num

/-- C1 amended.  A tick keeps both on/off valve positions and the outlet
valve position within [0,100] and steps each monotonically toward its
commanded extreme by at most 20; it keeps each proportional position within
[0,100] *provided the corresponding target register holds a value in
[0,100]*, stepping monotonically toward the target by at most 1.  (Without
the target-range proviso the invariant is false: see the counterexample,
where a target of 200 — or the 9999 error sentinel — drags the proportional
position past 100.) -/
theorem claim_C1_amended (r : Rand) (s : ProcState)
    (hpi0 : 0 ≤ s.powder_inlet) (hpi1 : s.powder_inlet ≤ 100)
    (hpp0 : 0 ≤ s.powder_inlet_prop) (hpp1 : s.powder_inlet_prop ≤ 100)
    (hli0 : 0 ≤ s.liquid_inlet) (hli1 : s.liquid_inlet ≤ 100)
    (hlp0 : 0 ≤ s.liquid_inlet_prop) (hlp1 : s.liquid_inlet_prop ≤ 100)
    (hov0 : 0 ≤ s.outlet_valve_position) (hov1 : s.outlet_valve_position ≤ 100)
    (h231 : 0 ≤ s.holding_registers PROPORTIONAL_POWDER_FEED_ADDR ∧
      s.holding_registers PROPORTIONAL_POWDER_FEED_ADDR ≤ 100)
    (h233 : 0 ≤ s.holding_registers PROPORTIONAL_LIQUID_FEED_ADDR ∧
      s.holding_registers PROPORTIONAL_LIQUID_FEED_ADDR ≤ 100) :
    (0 ≤ (simulate_tick r s).powder_inlet ∧ (simulate_tick r s).powder_inlet ≤ 100 ∧
      steps_toward s.powder_inlet (simulate_tick r s).powder_inlet
        (if (auto_step s).coils POWDER_INLET_ADDR = 1 then 100 else 0)
        ON_OFF_VALVE_INCREMENT) ∧
    (0 ≤ (simulate_tick r s).liquid_inlet ∧ (simulate_tick r s).liquid_inlet ≤ 100 ∧
      steps_toward s.liquid_inlet (simulate_tick r s).liquid_inlet
        (if (auto_step s).coils LIQUID_INLET_ADDR = 1 then 100 else 0)
        ON_OFF_VALVE_INCREMENT) ∧
    (0 ≤ (simulate_tick r s).outlet_valve_position ∧
      (simulate_tick r s).outlet_valve_position ≤ 100 ∧
      steps_toward s.outlet_valve_position (simulate_tick r s).outlet_valve_position
        (if (auto_step s).coils OUTLET_VALVE_ADDR = 1 then 100 else 0)
        ON_OFF_VALVE_INCREMENT) ∧
    (0 ≤ (simulate_tick r s).powder_inlet_prop ∧
      (simulate_tick r s).powder_inlet_prop ≤ 100 ∧
      steps_toward s.powder_inlet_prop (simulate_tick r s).powder_inlet_prop
        (((auto_step s).holding_registers PROPORTIONAL_POWDER_FEED_ADDR : ℤ) : ℚ)
        PROPORTIONAL_VALVE_INCREMENT) ∧
    (0 ≤ (simulate_tick r s).liquid_inlet_prop ∧
      (simulate_tick r s).liquid_inlet_prop ≤ 100 ∧
      steps_toward s.liquid_inlet_prop (simulate_tick r s).liquid_inlet_prop
        (((auto_step s).holding_registers PROPORTIONAL_LIQUID_FEED_ADDR : ℤ) : ℚ)
        PROPORTIONAL_VALVE_INCREMENT) := by
  have hb231 := auto_step_reg231_bound s h231
  have hb233 := auto_step_reg233_bound s h233
  have hb231q : 0 ≤ (((auto_step s).holding_registers PROPORTIONAL_POWDER_FEED_ADDR : ℤ) : ℚ) ∧
      (((auto_step s).holding_registers PROPORTIONAL_POWDER_FEED_ADDR : ℤ) : ℚ) ≤ 100 := by
    constructor
    · exact_mod_cast hb231.1
    · exact_mod_cast hb231.2
  have hb233q : 0 ≤ (((auto_step s).holding_registers PROPORTIONAL_LIQUID_FEED_ADDR : ℤ) : ℚ) ∧
      (((auto_step s).holding_registers PROPORTIONAL_LIQUID_FEED_ADDR : ℤ) : ℚ) ≤ 100 := by
    constructor
    · exact_mod_cast hb233.1
    · exact_mod_cast hb233.2
  refine ⟨?_, ?_, ?_, ?_, ?_⟩
  · rw [tick_powder_inlet]
    exact ⟨(on_off_valve_step_mem hpi0 hpi1).1, (on_off_valve_step_mem hpi0 hpi1).2,
      on_off_valve_step_steps hpi0 hpi1⟩
  · rw [tick_liquid_inlet]
    exact ⟨(on_off_valve_step_mem hli0 hli1).1, (on_off_valve_step_mem hli0 hli1).2,
      on_off_valve_step_steps hli0 hli1⟩
  · rw [tick_outlet_valve_position]
    exact ⟨(on_off_valve_step_mem hov0 hov1).1, (on_off_valve_step_mem hov0 hov1).2,
      on_off_valve_step_steps hov0 hov1⟩
  · rw [tick_powder_inlet_prop]
    exact ⟨(prop_valve_step_mem hpp0 hpp1 hb231q.1 hb231q.2).1,
      (prop_valve_step_mem hpp0 hpp1 hb231q.1 hb231q.2).2,
      prop_valve_step_steps _ _⟩
  · rw [tick_liquid_inlet_prop]
    exact ⟨(prop_valve_step_mem hlp0 hlp1 hb233q.1 hb233q.2).1,
      (prop_valve_step_mem hlp0 hlp1 hb233q.1 hb233q.2).2,
      prop_valve_step_steps _ _⟩

/-- Witness for the amended C1 at the fresh state. -/
theorem claim_C1_amended_witness :
    ((0 : ℚ) ≤ initState.powder_inlet ∧ initState.powder_inlet ≤ 100 ∧
      0 ≤ initState.holding_registers PROPORTIONAL_POWDER_FEED_ADDR ∧
      initState.holding_registers PROPORTIONAL_POWDER_FEED_ADDR ≤ 100) ∧
    (0 ≤ (simulate_tick ⟨500, 800, false⟩ initState).powder_inlet ∧
      (simulate_tick ⟨500, 800, false⟩ initState).powder_inlet ≤ 100 ∧
      steps_toward initState.powder_inlet
        (simulate_tick ⟨500, 800, false⟩ initState).powder_inlet
        (if (auto_step initState).coils POWDER_INLET_ADDR = 1 then 100 else 0)
        ON_OFF_VALVE_INCREMENT) :=
  ⟨⟨by norm_num [initState], by norm_num [initState], by decide, by decide⟩,
   (claim_C1_amended ⟨500, 800, false⟩ initState
      (by norm_num [initState]) (by norm_num [initState]) (by norm_num [initState])
      (by norm_num [initState]) (by norm_num [initState]) (by norm_num [initState])
      (by norm_num [initState]) (by norm_num [initState]) (by norm_num [initState])
      (by norm_num [initState]) ⟨by decide, by decide⟩ ⟨by decide, by decide⟩).1⟩

end PyModbus
